import Mathlib

/-!
Verification of the microes binding-generation tools.

A shallow embedding, in Lean 4, of the two Python code generators of this
repository (`tools/eht.py` and `tools/generate_bindings.py`): the schema
extractor (marker scanning over raw header text, balanced-delimiter body
extraction, property/enum extraction), the type resolver (`TypeSystem`),
the three backend emitters, and the orchestrators.  Python string
operations (`str.replace`, `str.strip`, `in`, `startswith`, `sorted`,
regex matching for the fixed patterns used by the tools) are modelled by
explicit total functions on `List Char` / `String`, and the theorems below
settle the specification's claims about the tools.
-/

namespace Microes

/-! ## Python string primitives -/

/-- Python `\w` character class (ASCII model): letters, digits, underscore. -/
def isWordChar (c : Char) : Bool :=
  ('a' ≤ c && c ≤ 'z') || ('A' ≤ c && c ≤ 'Z') || ('0' ≤ c && c ≤ '9') || c = '_'

/-- Python `\s` character class (ASCII model). -/
def isSpaceChar (c : Char) : Bool :=
  c = ' ' || c = '\t' || c = '\n' || c = '\r' || c = '\x0b' || c = '\x0c'

/-- Python `str.isdigit` / regex `\d` (ASCII model). -/
def isDigitChar (c : Char) : Bool := '0' ≤ c && c ≤ '9'

/-- `lpre p s` : `p` is a prefix of the character list `s`
(model of Python `str.startswith`). -/
def lpre : List Char → List Char → Bool
  | [], _ => true
  | _ :: _, [] => false
  | p :: ps, c :: cs => p = c && lpre ps cs

/-- `containsSub pat s` : `pat` occurs as a contiguous substring of `s`
(model of Python's `pat in s`). -/
def containsSub (pat : List Char) : List Char → Bool
  | [] => lpre pat []
  | c :: cs => lpre pat (c :: cs) || containsSub pat cs

/-- Substring test on `String`s (Python `pat in s`). -/
def strContains (s pat : String) : Bool := containsSub pat.data s.data

/-- Prefix test on `String`s (Python `s.startswith(pat)`). -/
def strStarts (s pat : String) : Bool := lpre pat.data s.data

/-- Remove every occurrence of `"const"`, scanning left to right
(model of Python `s.replace('const', '')`). -/
def removeConst : List Char → List Char
  | 'c' :: 'o' :: 'n' :: 's' :: 't' :: rest => removeConst rest
  | c :: rest => c :: removeConst rest
  | [] => []

/-- Remove every `'&'` character (model of Python `s.replace('&', '')`). -/
def removeAmp : List Char → List Char
  | '&' :: rest => removeAmp rest
  | c :: rest => c :: removeAmp rest
  | [] => []

/-- Model of Python `str.strip()`: drop leading and trailing whitespace. -/
def pyStripChars (s : List Char) : List Char :=
  ((s.dropWhile isSpaceChar).reverse.dropWhile isSpaceChar).reverse

/-- Python `str.strip()` on `String`. -/
def pyStrip (s : String) : String := ⟨pyStripChars s.data⟩

/-- Replace `'\\'` by `'/'` (Python `s.replace('\\', '/')`). -/
def replaceBackslash (s : String) : String :=
  ⟨s.data.map (fun c => if c = '\\' then '/' else c)⟩

/-- Lexicographic comparison of character lists by code point,
the order Python uses to compare strings. -/
def lexLe : List Char → List Char → Bool
  | [], _ => true
  | _ :: _, [] => false
  | a :: as, b :: bs =>
    if a.toNat < b.toNat then true
    else if a.toNat = b.toNat then lexLe as bs
    else false

/-- Python string `<=`. -/
def strLe (a b : String) : Bool := lexLe a.data b.data

/-- Insertion into a sorted list, for the model of Python `sorted`. -/
def insLe (a : String) : List String → List String
  | [] => [a]
  | b :: bs => if strLe a b then a :: b :: bs else b :: insLe a bs

/-- Insertion sort by `strLe`: model of Python `sorted` on strings. -/
def sortLe : List String → List String
  | [] => []
  | a :: as => insLe a (sortLe as)

/-- Keep the first occurrence of each element (the order in which a Python
`set` accumulated by repeated `add` calls retains distinct elements). -/
def dedupFirst : List String → List String
  | [] => []
  | a :: as => a :: (dedupFirst as).filter (fun b => !(b = a))

/-- Membership used for `set` semantics. -/
def memStr (a : String) : List String → Bool
  | [] => false
  | b :: bs => a = b || memStr a bs

/-! ## Schema data model (`eht.py` dataclasses) -/

/-- `eht.py` dataclass `Property`. -/
structure Property where
  name : String
  cpp_type : String
  default_value : Option String
deriving Repr, DecidableEq

/-- `eht.py` dataclass `Component`. -/
structure Component where
  name : String
  nspace : String
  properties : List Property
  header_path : String
deriving Repr, DecidableEq

/-- `eht.py` dataclass `Enum`. -/
structure Enum where
  name : String
  nspace : String
  values : List String
  underlying_type : String
deriving Repr, DecidableEq

/-! ## `eht.py` TypeSystem -/

/-- `TypeSystem.PRIMITIVE_TYPES`. -/
def PRIMITIVE_TYPES : List String :=
  ["bool", "i8", "i16", "i32", "i64", "u8", "u16", "u32", "u64",
   "f32", "f64", "float", "double", "int", "unsigned"]

/-- `TypeSystem.GLM_TYPES`. -/
def GLM_TYPES : List String :=
  ["glm::vec2", "glm::vec3", "glm::vec4", "glm::quat", "glm::uvec2"]

/-- `TypeSystem.SKIP_TYPES`. -/
def SKIP_TYPES : List String := ["glm::mat4", "std::vector", "std::function"]

/-- `TypeSystem.CPP_TO_TS` as an association list. -/
def CPP_TO_TS : List (String × String) :=
  [("bool", "boolean"),
   ("i8", "number"), ("i16", "number"), ("i32", "number"), ("i64", "number"),
   ("u8", "number"), ("u16", "number"), ("u32", "number"), ("u64", "number"),
   ("f32", "number"), ("f64", "number"), ("float", "number"), ("double", "number"),
   ("int", "number"), ("unsigned", "number"),
   ("std::string", "string"), ("Entity", "number"),
   ("glm::vec2", "Vec2"), ("glm::vec3", "Vec3"), ("glm::vec4", "Vec4"),
   ("glm::quat", "Quat"), ("glm::uvec2", "UVec2")]

/-- Lookup in `CPP_TO_TS` (Python `dict` access is by key equality). -/
def lookupTS (t : String) : Option String :=
  (CPP_TO_TS.find? (fun p => p.1 = t)).map (·.2)

/-- `TypeSystem.clean_type`:
`cpp_type.replace('const', '').replace('&', '').strip()`. -/
def clean_type (t : String) : String :=
  ⟨pyStripChars (removeAmp (removeConst t.data))⟩

/-- The `enum_names` set built by `TypeSystem.__init__`: each enum's bare
name and, when its namespace is nonempty, its qualified `ns::name`.
Membership test, which is all the Python `set` is used for. -/
def memEnumNames (enums : List Enum) (t : String) : Bool :=
  enums.any (fun e => t = e.name || (!e.nspace.isEmpty && t = e.nspace ++ "::" ++ e.name))

/-- `TypeSystem.is_enum`. -/
def is_enum (enums : List Enum) (t : String) : Bool :=
  memEnumNames enums (clean_type t)

/-- `TypeSystem.is_handle`. -/
def is_handle (t : String) : Bool :=
  let c := clean_type t
  strContains c "Handle" || strStarts c "resource::"

/-- `TypeSystem.is_skip`. -/
def is_skip (t : String) : Bool :=
  let c := clean_type t
  SKIP_TYPES.any (fun s => strContains c s)

/-- `TypeSystem.needs_wrapper`. -/
def needs_wrapper (enums : List Enum) (comp : Component) : Bool :=
  comp.properties.any (fun p => is_enum enums p.cpp_type || is_handle p.cpp_type)

/-- `TypeSystem.get_js_type`. -/
def get_js_type (enums : List Enum) (t : String) : String :=
  let c := clean_type t
  if is_handle c then "u32"
  else if is_enum enums c then "i32"
  else c

/-- `TypeSystem.to_typescript`. -/
def to_typescript (enums : List Enum) (t : String) : String :=
  let c := clean_type t
  match lookupTS c with
  | some ts => ts
  | none => if is_enum enums c || is_handle c then "number" else "any"

/-! ## Shared emitter helpers -/

/-- Python `str.lower()` (ASCII model). -/
def pyLower (s : String) : String := ⟨s.data.map Char.toLower⟩

/-- Python `'\n'.join(lines)`. -/
def joinLines (l : List String) : String := String.intercalate "\n" l

/-- The effect of Python's `lines[-1] += ';'` after a block was appended:
attach a `';'` to the last line of the (nonempty) block. -/
def appendSemiLast : List String → List String
  | [] => []
  | [a] => [a ++ ";"]
  | a :: b :: rest => a :: appendSemiLast (b :: rest)

/-- Qualified name: `ns::name` when the namespace
string is truthy, else the bare name (`eht.py` uses this for enums and
components). -/
def fullNameQ (ns nm : String) : String :=
  if ns.isEmpty then nm else ns ++ "::" ++ nm

/-- The separator comment line used by the generators: `"// "` followed by
77 `'='` characters. -/
def sepLine : String :=
  "// " ++ String.mk (List.replicate 77 '=')

/-- Fuel-driven scan removing non-overlapping occurrences of `pat`,
left to right: Python `s.replace(pat, '')`. -/
def removeSubF (pat : List Char) : Nat → List Char → List Char
  | 0, s => s
  | _, [] => []
  | fuel + 1, c :: cs =>
    if lpre pat (c :: cs) then removeSubF pat fuel ((c :: cs).drop pat.length)
    else c :: removeSubF pat fuel cs

/-- Python `s.replace(pat, '')` for a nonempty pattern. -/
def removeSub (pat s : List Char) : List Char := removeSubF pat (s.length + 1) s

/-- Fuel-driven: the text after the last non-overlapping occurrence of `sep`
(Python `s.split(sep)[-1]`; the whole string when `sep` does not occur). -/
def afterLastF (sep : List Char) : Nat → List Char → List Char
  | 0, s => s
  | _, [] => []
  | fuel + 1, c :: cs =>
    if lpre sep (c :: cs) then
      let rest := (c :: cs).drop sep.length
      if containsSub sep rest then afterLastF sep fuel rest else rest
    else afterLastF sep fuel cs

/-- Python `s.split(sep)[-1]`. -/
def afterLast (sep s : List Char) : List Char := afterLastF sep (s.length + 1) s

/-! ## `eht.py` EmbindGenerator -/

/-- `EmbindGenerator._gen_header`. -/
def embind_gen_header : List String :=
  ["/**",
   " * @file    WebBindings.generated.cpp",
   " * @brief   Auto-generated Emscripten embind bindings",
   " * @details Generated by EHT - DO NOT EDIT",
   " *",
   " * @copyright Copyright (c) 2026 ESEngine Team",
   " */",
   "",
   "#ifdef ES_PLATFORM_WEB",
   "",
   "#include <emscripten/bind.h>",
   "#include \"../ecs/Registry.hpp\"",
   "#include \"../math/Math.hpp\""]

/-- The include line `EmbindGenerator._gen_includes` adds to its `headers`
set for one component (none when the guard rejects the header path). -/
def includeLineOf (comp : Component) : Option String :=
  if !comp.header_path.isEmpty && strContains comp.header_path "src/esengine/" then
    some ("#include \"../" ++
      String.mk (afterLast "src/esengine/".data (replaceBackslash comp.header_path).data) ++ "\"")
  else none

/-- The sorted header lines of `EmbindGenerator._gen_includes`
(`sorted(headers)` over the accumulated `set`). -/
def embindHeaderLines (comps : List Component) : List String :=
  sortLe (dedupFirst (comps.filterMap includeLineOf))

/-- `EmbindGenerator._gen_includes`. -/
def embind_gen_includes (comps : List Component) : List String :=
  embindHeaderLines comps ++
  ["",
   "using namespace emscripten;",
   "using namespace esengine;",
   "using namespace esengine::ecs;",
   ""]

/-- `EmbindGenerator._gen_math_types` (fixed boilerplate). -/
def embind_gen_math_types : List String :=
  [sepLine,
   "// Math Types",
   sepLine,
   "",
   "EMSCRIPTEN_BINDINGS(esengine_math) \x7b",
   "    value_object<glm::vec2>(\"Vec2\")",
   "        .field(\"x\", &glm::vec2::x)",
   "        .field(\"y\", &glm::vec2::y);",
   "",
   "    value_object<glm::vec3>(\"Vec3\")",
   "        .field(\"x\", &glm::vec3::x)",
   "        .field(\"y\", &glm::vec3::y)",
   "        .field(\"z\", &glm::vec3::z);",
   "",
   "    value_object<glm::vec4>(\"Vec4\")",
   "        .field(\"x\", &glm::vec4::x)",
   "        .field(\"y\", &glm::vec4::y)",
   "        .field(\"z\", &glm::vec4::z)",
   "        .field(\"w\", &glm::vec4::w);",
   "",
   "    value_object<glm::uvec2>(\"UVec2\")",
   "        .field(\"x\", &glm::uvec2::x)",
   "        .field(\"y\", &glm::uvec2::y);",
   "",
   "    value_object<glm::quat>(\"Quat\")",
   "        .field(\"w\", &glm::quat::w)",
   "        .field(\"x\", &glm::quat::x)",
   "        .field(\"y\", &glm::quat::y)",
   "        .field(\"z\", &glm::quat::z);",
   "\x7d",
   ""]

/-- One enum's registration block inside `EmbindGenerator._gen_enums`
(including the trailing `lines[-1] += ';'` and blank line). -/
def embindEnumBlock (e : Enum) : List String :=
  appendSemiLast
    (("    enum_<" ++ fullNameQ e.nspace e.name ++ ">(\"" ++ e.name ++ "\")") ::
      e.values.map (fun v =>
        "        .value(\"" ++ v ++ "\", " ++ fullNameQ e.nspace e.name ++ "::" ++ v ++ ")"))
  ++ [""]

/-- `EmbindGenerator._gen_enums`. -/
def embind_gen_enums (enums : List Enum) : List String :=
  if enums.isEmpty then []
  else
    [sepLine,
     "// Enums",
     sepLine,
     "",
     "EMSCRIPTEN_BINDINGS(esengine_enums) \x7b"]
    ++ enums.flatMap embindEnumBlock
    ++ ["\x7d", ""]

/-- The shadow-record block `EmbindGenerator._gen_components` emits for one
component that needs a wrapper: the `{Name}JS` struct definition plus the
`fromJS` and `toJS` conversion functions. -/
def wrapperBlock (enums : List Enum) (comp : Component) : List String :=
  let full := fullNameQ comp.nspace comp.name
  let js := comp.name ++ "JS"
  let kept := comp.properties.filter (fun p => !is_skip p.cpp_type)
  (("struct " ++ js ++ " \x7b") ::
    kept.map (fun p => "    " ++ get_js_type enums p.cpp_type ++ " " ++ p.name ++ ";"))
  ++ ["\x7d;", ""]
  ++ ((full ++ " " ++ pyLower comp.name ++ "FromJS(const " ++ js ++ "& js) \x7b") ::
      ("    " ++ full ++ " c;") ::
      kept.map (fun p =>
        let t := clean_type p.cpp_type
        if is_handle t then
          "    c." ++ p.name ++ " = " ++ t ++ "(js." ++ p.name ++ ");"
        else if is_enum enums t then
          "    c." ++ p.name ++ " = static_cast<" ++ t ++ ">(js." ++ p.name ++ ");"
        else
          "    c." ++ p.name ++ " = js." ++ p.name ++ ";"))
  ++ ["    return c;", "\x7d", ""]
  ++ ((js ++ " " ++ pyLower comp.name ++ "ToJS(const " ++ full ++ "& c) \x7b") ::
      ("    " ++ js ++ " js;") ::
      kept.map (fun p =>
        if is_handle p.cpp_type then
          "    js." ++ p.name ++ " = c." ++ p.name ++ ".id();"
        else if is_enum enums p.cpp_type then
          "    js." ++ p.name ++ " = static_cast<i32>(c." ++ p.name ++ ");"
        else
          "    js." ++ p.name ++ " = c." ++ p.name ++ ";"))
  ++ ["    return js;", "\x7d", ""]

/-- The `value_object<{bind}>("{name}")` head line of one component's
binding block in `EmbindGenerator._gen_components`. -/
def voHead (enums : List Enum) (comp : Component) : String :=
  let bindName :=
    if needs_wrapper enums comp then comp.name ++ "JS"
    else fullNameQ comp.nspace comp.name
  "    value_object<" ++ bindName ++ ">(\"" ++ comp.name ++ "\")"

/-- One `.field` line of a component's `value_object` block (`eht.py`). -/
def voField (enums : List Enum) (comp : Component) (p : Property) : String :=
  let bindName :=
    if needs_wrapper enums comp then comp.name ++ "JS"
    else fullNameQ comp.nspace comp.name
  "        .field(\"" ++ p.name ++ "\", &" ++ bindName ++ "::" ++ p.name ++ ")"

/-- One component's `value_object` binding block in
`EmbindGenerator._gen_components`. -/
def voBlock (enums : List Enum) (comp : Component) : List String :=
  appendSemiLast
    (voHead enums comp ::
      (comp.properties.filter (fun p => !is_skip p.cpp_type)).map (voField enums comp))
  ++ [""]

/-- `EmbindGenerator._gen_components`. -/
def embind_gen_components (enums : List Enum) (comps : List Component) : List String :=
  [sepLine,
   "// Components",
   sepLine,
   ""]
  ++ comps.flatMap (fun c => if needs_wrapper enums c then wrapperBlock enums c else [])
  ++ ["EMSCRIPTEN_BINDINGS(esengine_components) \x7b"]
  ++ comps.flatMap (voBlock enums)
  ++ ["\x7d", ""]

/-- One component's registry-accessor block in
`EmbindGenerator._gen_registry`. -/
def embindRegistryBlock (enums : List Enum) (comp : Component) : List String :=
  let full := fullNameQ comp.nspace comp.name
  let name := comp.name
  let js := name ++ "JS"
  let from_js := pyLower name ++ "FromJS"
  let to_js := pyLower name ++ "ToJS"
  ["        // " ++ name,
   "        .function(\"has" ++ name ++ "\", optional_override([](Registry& r, u32 e) \x7b",
   "            return r.has<" ++ full ++ ">(static_cast<Entity>(e));",
   "        \x7d))"]
  ++ (if needs_wrapper enums comp then
      ["        .function(\"get" ++ name ++ "\", optional_override([](Registry& r, u32 e) \x7b",
       "            return " ++ to_js ++ "(r.get<" ++ full ++ ">(static_cast<Entity>(e)));",
       "        \x7d))",
       "        .function(\"add" ++ name ++ "\", optional_override([](Registry& r, u32 e, const " ++ js ++ "& js) \x7b",
       "            r.emplaceOrReplace<" ++ full ++ ">(static_cast<Entity>(e), " ++ from_js ++ "(js));",
       "        \x7d))"]
    else
      ["        .function(\"get" ++ name ++ "\", optional_override([](Registry& r, u32 e) -> " ++ full ++ "& \x7b",
       "            return r.get<" ++ full ++ ">(static_cast<Entity>(e));",
       "        \x7d), allow_raw_pointers())",
       "        .function(\"add" ++ name ++ "\", optional_override([](Registry& r, u32 e, const " ++ full ++ "& c) \x7b",
       "            r.emplaceOrReplace<" ++ full ++ ">(static_cast<Entity>(e), c);",
       "        \x7d))"])
  ++ ["        .function(\"remove" ++ name ++ "\", optional_override([](Registry& r, u32 e) \x7b",
      "            r.remove<" ++ full ++ ">(static_cast<Entity>(e));",
      "        \x7d))",
      ""]

/-- `EmbindGenerator._gen_registry`. -/
def embind_gen_registry (enums : List Enum) (comps : List Component) : List String :=
  [sepLine,
   "// Registry",
   sepLine,
   "",
   "EMSCRIPTEN_BINDINGS(esengine_registry) \x7b",
   "    class_<Registry>(\"Registry\")",
   "        .constructor<>()",
   "        .function(\"create\", optional_override([](Registry& r) \x7b",
   "            return static_cast<u32>(r.create());",
   "        \x7d))",
   "        .function(\"destroy\", optional_override([](Registry& r, u32 e) \x7b",
   "            r.destroy(static_cast<Entity>(e));",
   "        \x7d))",
   "        .function(\"valid\", optional_override([](Registry& r, u32 e) \x7b",
   "            return r.valid(static_cast<Entity>(e));",
   "        \x7d))",
   "        .function(\"entityCount\", &Registry::entityCount)",
   ""]
  ++ comps.flatMap (embindRegistryBlock enums)
  ++ ["        ;", "\x7d"]

/-- The full line list of `EmbindGenerator.generate`. -/
def embind_lines (comps : List Component) (enums : List Enum) : List String :=
  embind_gen_header
  ++ embind_gen_includes comps
  ++ embind_gen_math_types
  ++ embind_gen_enums enums
  ++ embind_gen_components enums comps
  ++ embind_gen_registry enums comps
  ++ ["", "#endif  // ES_PLATFORM_WEB", ""]

/-- `EmbindGenerator.generate`. -/
def embind_generate (comps : List Component) (enums : List Enum) : String :=
  joinLines (embind_lines comps enums)

/-! ## `eht.py` TypeScriptGenerator -/

/-- `TypeScriptGenerator._gen_header`. -/
def ts_gen_header : List String :=
  ["/**",
   " * @file    wasm.generated.ts",
   " * @brief   ESEngine WASM Bindings TypeScript Definitions",
   " * @details Generated by EHT - DO NOT EDIT",
   " */",
   "",
   "import type \x7b Entity, Vec2, Vec3, Vec4, Quat \x7d from './types';",
   "",
   "// Additional Math Types",
   "export interface UVec2 \x7b x: number; y: number; \x7d",
   "export type Mat4 = number[];",
   ""]

/-- One enum's block in `TypeScriptGenerator._gen_enums`: members are
numbered by `enumerate`, i.e. by declaration position. -/
def tsEnumBlock (e : Enum) : List String :=
  ("export enum " ++ e.name ++ " \x7b") ::
    e.values.enum.map (fun iv => "    " ++ iv.2 ++ " = " ++ toString iv.1 ++ ",")
  ++ ["\x7d", ""]

/-- `TypeScriptGenerator._gen_enums`. -/
def ts_gen_enums (enums : List Enum) : List String :=
  if enums.isEmpty then []
  else ["// Enums", ""] ++ enums.flatMap tsEnumBlock

/-- One component's interface block in `TypeScriptGenerator._gen_components`. -/
def tsComponentBlock (enums : List Enum) (comp : Component) : List String :=
  ("export interface " ++ comp.name ++ " \x7b") ::
    (comp.properties.filter (fun p => !is_skip p.cpp_type)).map (fun p =>
      "    " ++ p.name ++ ": " ++ to_typescript enums p.cpp_type ++ ";")
  ++ ["\x7d", ""]

/-- `TypeScriptGenerator._gen_components`. -/
def ts_gen_components (enums : List Enum) (comps : List Component) : List String :=
  ["// Components", ""] ++ comps.flatMap (tsComponentBlock enums)

/-- `TypeScriptGenerator._gen_registry`. -/
def ts_gen_registry (comps : List Component) : List String :=
  ["// Registry",
   "export interface Registry \x7b",
   "    create(): Entity;",
   "    destroy(entity: Entity): void;",
   "    valid(entity: Entity): boolean;",
   "    entityCount(): number;",
   ""]
  ++ comps.flatMap (fun c =>
      ["    has" ++ c.name ++ "(entity: Entity): boolean;",
       "    get" ++ c.name ++ "(entity: Entity): " ++ c.name ++ ";",
       "    add" ++ c.name ++ "(entity: Entity, component: " ++ c.name ++ "): void;",
       "    remove" ++ c.name ++ "(entity: Entity): void;"])
  ++ ["\x7d", ""]

/-- `TypeScriptGenerator._gen_module`. -/
def ts_gen_module (comps : List Component) : List String :=
  ["// Module",
   "export interface ESEngineModule \x7b",
   "    Registry: new () => Registry;"]
  ++ comps.map (fun c => "    " ++ c.name ++ ": new () => " ++ c.name ++ ";")
  ++ ["\x7d", ""]

/-- The full line list of `TypeScriptGenerator.generate` (`eht.py`). -/
def ts_lines (comps : List Component) (enums : List Enum) : List String :=
  ts_gen_header
  ++ ts_gen_enums enums
  ++ ts_gen_components enums comps
  ++ ts_gen_registry comps
  ++ ts_gen_module comps

/-- `TypeScriptGenerator.generate` (`eht.py`). -/
def ts_generate (comps : List Component) (enums : List Enum) : String :=
  joinLines (ts_lines comps enums)

/-! ## `generate_bindings.py` data model -/

/-- `generate_bindings.py` dataclass `Property`. -/
structure GBProperty where
  name : String
  type : String
  default_value : Option String
deriving Repr, DecidableEq

/-- `generate_bindings.py` dataclass `Method`. -/
structure GBMethod where
  name : String
  return_type : String
  parameters : List (String × String)
  is_const : Bool
  is_static : Bool
deriving Repr, DecidableEq

/-- `generate_bindings.py` dataclass `Component`. -/
structure GBComponent where
  name : String
  nspace : String
  properties : List GBProperty
  methods : List GBMethod
  header_path : String
  is_struct : Bool
deriving Repr, DecidableEq

/-- `generate_bindings.py` qualified name: always `f"ns::name"`, with no
special case for an empty namespace. -/
def gbFullName (c : GBComponent) : String := c.nspace ++ "::" ++ c.name

/-- The `#include` line one component contributes in
`EmscriptenGenerator.generate` (`header_path.replace('src/esengine/', '')`
under a `"../"` prefix; no path guard, unlike `eht.py`). -/
def gbIncludeLine (pfx : String) (c : GBComponent) : String :=
  "#include \"" ++ pfx ++ String.mk (removeSub "src/esengine/".data c.header_path.data) ++ "\""

/-- The include block of the `generate_bindings.py` generators: lines are
appended in component order, each skipped if already seen
(`included_headers` set). -/
def gbDedupLoop (seen : List String) : List String → List String
  | [] => []
  | l :: ls => if memStr l seen then gbDedupLoop seen ls else l :: gbDedupLoop (l :: seen) ls

/-- The rendered include lines of `EmscriptenGenerator.generate`. -/
def gbIncludeLines (comps : List GBComponent) : List String :=
  gbDedupLoop [] (comps.map (gbIncludeLine "../"))

/-! ## `generate_bindings.py` EmscriptenGenerator -/

/-- One component's block in `EmscriptenGenerator._generate_components`. -/
def gbEmsComponentBlock (c : GBComponent) : List String :=
  let full := gbFullName c
  ("    // " ++ c.name ++ " component") ::
  ("    value_object<" ++ full ++ ">(\"" ++ c.name ++ "\")") ::
  (c.properties.map (fun p => "        .field(\"" ++ p.name ++ "\", &" ++ full ++ "::" ++ p.name ++ ")")
   ++ (c.methods.filter (fun m => !m.is_static)).map (fun m =>
        "        .function(\"" ++ m.name ++ "\", &" ++ full ++ "::" ++ m.name ++ ")")
   ++ ["        ;", ""])

/-- `EmscriptenGenerator._generate_components`. -/
def gbEmsComponents (comps : List GBComponent) : List String :=
  [sepLine,
   "// ECS Components",
   sepLine,
   "",
   "EMSCRIPTEN_BINDINGS(esengine_components) \x7b"]
  ++ comps.flatMap gbEmsComponentBlock
  ++ ["\x7d", ""]

/-- One component's block in `EmscriptenGenerator._generate_registry`. -/
def gbEmsRegistryBlock (c : GBComponent) : List String :=
  let full := gbFullName c
  let n := c.name
  ["        // " ++ n ++ " component",
   "        .function(\"has" ++ n ++ "\", optional_override([](ecs::Registry& self, Entity e) \x7b",
   "            return self.has<" ++ full ++ ">(e);",
   "        \x7d))",
   "        .function(\"get" ++ n ++ "\", optional_override([](ecs::Registry& self, Entity e) -> " ++ full ++ "& \x7b",
   "            return self.get<" ++ full ++ ">(e);",
   "        \x7d))",
   "        .function(\"add" ++ n ++ "\", optional_override([](ecs::Registry& self, Entity e, const " ++ full ++ "& c) -> " ++ full ++ "& \x7b",
   "            return self.emplaceOrReplace<" ++ full ++ ">(e, c);",
   "        \x7d))",
   "        .function(\"remove" ++ n ++ "\", optional_override([](ecs::Registry& self, Entity e) \x7b",
   "            self.remove<" ++ full ++ ">(e);",
   "        \x7d))",
   ""]

/-- `EmscriptenGenerator._generate_registry`. -/
def gbEmsRegistry (comps : List GBComponent) : List String :=
  [sepLine,
   "// ECS Registry",
   sepLine,
   "",
   "EMSCRIPTEN_BINDINGS(esengine_registry) \x7b",
   "    class_<ecs::Registry>(\"Registry\")",
   "        .constructor<>()",
   "",
   "        // Entity management",
   "        .function(\"create\", optional_override([](ecs::Registry& self) \x7b",
   "            return self.create();",
   "        \x7d))",
   "        .function(\"destroy\", optional_override([](ecs::Registry& self, Entity e) \x7b",
   "            self.destroy(e);",
   "        \x7d))",
   "        .function(\"valid\", optional_override([](ecs::Registry& self, Entity e) \x7b",
   "            return self.valid(e);",
   "        \x7d))",
   "        .function(\"entityCount\", optional_override([](const ecs::Registry& self) \x7b",
   "            return self.entityCount();",
   "        \x7d))",
   ""]
  ++ comps.flatMap gbEmsRegistryBlock
  ++ ["        ;", "\x7d"]

/-- The full line list of `EmscriptenGenerator.generate`
(`generate_bindings.py`). -/
def gbEmsLines (comps : List GBComponent) : List String :=
  ["/**",
   " * @file    WebBindings.generated.cpp",
   " * @brief   Auto-generated Emscripten bindings",
   " * @details Generated by tools/generate_bindings.py - DO NOT EDIT MANUALLY",
   " *",
   " * @author  ESEngine Binding Generator",
   " * @date    2026",
   " */",
   "",
   "#ifdef ES_PLATFORM_WEB",
   "",
   "#include <emscripten/bind.h>",
   "#include \"../ecs/Registry.hpp\"",
   "#include \"../ecs/Entity.hpp\"",
   "#include \"../math/Math.hpp\"",
   ""]
  ++ gbIncludeLines comps
  ++ ["",
      "using namespace emscripten;",
      "",
      "namespace esengine \x7b",
      "",
      sepLine,
      "// Math Types",
      sepLine,
      "",
      "EMSCRIPTEN_BINDINGS(esengine_math) \x7b",
      "    // Vec2",
      "    value_object<glm::vec2>(\"Vec2\")",
      "        .field(\"x\", &glm::vec2::x)",
      "        .field(\"y\", &glm::vec2::y);",
      "",
      "    // Vec3",
      "    value_object<glm::vec3>(\"Vec3\")",
      "        .field(\"x\", &glm::vec3::x)",
      "        .field(\"y\", &glm::vec3::y)",
      "        .field(\"z\", &glm::vec3::z);",
      "",
      "    // Vec4",
      "    value_object<glm::vec4>(\"Vec4\")",
      "        .field(\"x\", &glm::vec4::x)",
      "        .field(\"y\", &glm::vec4::y)",
      "        .field(\"z\", &glm::vec4::z)",
      "        .field(\"w\", &glm::vec4::w);",
      "",
      "    // Quat",
      "    value_object<glm::quat>(\"Quat\")",
      "        .field(\"x\", &glm::quat::x)",
      "        .field(\"y\", &glm::quat::y)",
      "        .field(\"z\", &glm::quat::z)",
      "        .field(\"w\", &glm::quat::w);",
      "\x7d",
      "",
      sepLine,
      "// ECS Entity Type",
      sepLine,
      "",
      "EMSCRIPTEN_BINDINGS(esengine_entity) \x7b",
      "    // Entity is u32, exposed as number in JavaScript",
      "\x7d",
      ""]
  ++ gbEmsComponents comps
  ++ gbEmsRegistry comps
  ++ ["",
      "\x7d  // namespace esengine",
      "",
      "#endif  // ES_PLATFORM_WEB",
      ""]

/-- `EmscriptenGenerator.generate` (`generate_bindings.py`). -/
def gbEmsGenerate (comps : List GBComponent) : String := joinLines (gbEmsLines comps)

/-! ## `generate_bindings.py` TypeScriptGenerator -/

/-- The `type_map` dict of `TypeScriptGenerator._cpp_to_ts_type`. -/
def gbTypeMap : List (String × String) :=
  [("bool", "boolean"),
   ("f32", "number"), ("f64", "number"),
   ("u8", "number"), ("u16", "number"), ("u32", "number"), ("u64", "number"),
   ("i8", "number"), ("i16", "number"), ("i32", "number"), ("i64", "number"),
   ("float", "number"), ("double", "number"), ("int", "number"), ("unsigned", "number"),
   ("size_t", "number"), ("usize", "number"),
   ("Entity", "Entity"), ("std::string", "string"), ("void", "void")]

/-- Python `str.capitalize()`: first character upper-cased, rest lower-cased. -/
def pyCapitalize (s : String) : String :=
  match s.data with
  | [] => ""
  | c :: cs => ⟨Char.toUpper c :: cs.map Char.toLower⟩

/-- The canonical string `TypeScriptGenerator._cpp_to_ts_type` looks up:
strip, then remove `const` and `&`, then strip again. -/
def gbCanon (t : String) : String :=
  pyStrip ⟨removeAmp (removeConst (pyStrip t).data)⟩

/-- `TypeScriptGenerator._cpp_to_ts_type` (`generate_bindings.py`). -/
def gb_cpp_to_ts (t : String) : String :=
  let t1 := gbCanon t
  match (gbTypeMap.find? (fun p => p.1 = t1)).map (·.2) with
  | some x => x
  | none =>
    if strStarts t1 "glm::" then
      let g : String := ⟨t1.data.drop 5⟩
      if g = "vec2" || g = "vec3" || g = "vec4" || g = "quat" then pyCapitalize g
      else "any"
    else "any"

/-- One component's interface block in `TypeScriptGenerator.generate`
(`generate_bindings.py`): every property is listed, plus non-static methods. -/
def gbTsInterfaceBlock (c : GBComponent) : List String :=
  ("    interface " ++ c.name ++ " \x7b") ::
  (c.properties.map (fun p => "        " ++ p.name ++ ": " ++ gb_cpp_to_ts p.type ++ ";")
   ++ (c.methods.filter (fun m => !m.is_static)).map (fun m =>
        "        " ++ m.name ++ "(" ++
          String.intercalate ", " (m.parameters.map (fun pn => pn.2 ++ ": " ++ gb_cpp_to_ts pn.1)) ++
          "): " ++ gb_cpp_to_ts m.return_type ++ ";")
   ++ ["    \x7d", ""])

/-- One component's registry block in `TypeScriptGenerator.generate`
(`generate_bindings.py`). -/
def gbTsRegistryBlock (c : GBComponent) : List String :=
  ["        // " ++ c.name ++ " component",
   "        has" ++ c.name ++ "(entity: Entity): boolean;",
   "        get" ++ c.name ++ "(entity: Entity): " ++ c.name ++ ";",
   "        add" ++ c.name ++ "(entity: Entity, component: " ++ c.name ++ "): " ++ c.name ++ ";",
   "        remove" ++ c.name ++ "(entity: Entity): void;",
   ""]

/-- The full line list of `TypeScriptGenerator.generate`
(`generate_bindings.py`). -/
def gbTsLines (comps : List GBComponent) : List String :=
  ["/**",
   " * @file    esengine.d.ts",
   " * @brief   TypeScript definitions for ESEngine",
   " * @details Generated by tools/generate_bindings.py - DO NOT EDIT MANUALLY",
   " */",
   "",
   "declare namespace Module \x7b",
   "    " ++ sepLine,
   "    // Core Types",
   "    " ++ sepLine,
   "",
   "    type Entity = number;",
   "",
   "    " ++ sepLine,
   "    // Math Types",
   "    " ++ sepLine,
   "",
   "    interface Vec2 \x7b",
   "        x: number;",
   "        y: number;",
   "    \x7d",
   "",
   "    interface Vec3 \x7b",
   "        x: number;",
   "        y: number;",
   "        z: number;",
   "    \x7d",
   "",
   "    interface Vec4 \x7b",
   "        x: number;",
   "        y: number;",
   "        z: number;",
   "        w: number;",
   "    \x7d",
   "",
   "    interface Quat \x7b",
   "        x: number;",
   "        y: number;",
   "        z: number;",
   "        w: number;",
   "    \x7d",
   "",
   "    " ++ sepLine,
   "    // ECS Components",
   "    " ++ sepLine,
   ""]
  ++ comps.flatMap gbTsInterfaceBlock
  ++ ["    " ++ sepLine,
      "    // ECS Registry",
      "    " ++ sepLine,
      "",
      "    class Registry \x7b",
      "        constructor();",
      "",
      "        // Entity management",
      "        create(): Entity;",
      "        destroy(entity: Entity): void;",
      "        valid(entity: Entity): boolean;",
      "        entityCount(): number;",
      ""]
  ++ comps.flatMap gbTsRegistryBlock
  ++ ["    \x7d",
      "",
      "    " ++ sepLine,
      "    // Module Lifecycle",
      "    " ++ sepLine,
      "",
      "    function onRuntimeInitialized(): void;",
      "\x7d",
      "",
      "export = Module;",
      "export as namespace Module;",
      ""]

/-- `TypeScriptGenerator.generate` (`generate_bindings.py`). -/
def gbTsGenerate (comps : List GBComponent) : String := joinLines (gbTsLines comps)

/-! ## `generate_bindings.py` QuickJSGenerator -/

/-- `QuickJSGenerator._generate_helpers` (fixed conversion helpers). -/
def qjsHelpers : List String :=
  [sepLine,
   "// Type Conversion Helpers",
   sepLine,
   "",
   "static glm::vec3 jsToVec3(JSContext* ctx, JSValue jsObj) \x7b",
   "    glm::vec3 result(0.0f);",
   "    JSValue x = JS_GetPropertyStr(ctx, jsObj, \"x\");",
   "    JSValue y = JS_GetPropertyStr(ctx, jsObj, \"y\");",
   "    JSValue z = JS_GetPropertyStr(ctx, jsObj, \"z\");",
   "    double dx, dy, dz;",
   "    JS_ToFloat64(ctx, &dx, x);",
   "    JS_ToFloat64(ctx, &dy, y);",
   "    JS_ToFloat64(ctx, &dz, z);",
   "    result.x = static_cast<f32>(dx);",
   "    result.y = static_cast<f32>(dy);",
   "    result.z = static_cast<f32>(dz);",
   "    JS_FreeValue(ctx, x);",
   "    JS_FreeValue(ctx, y);",
   "    JS_FreeValue(ctx, z);",
   "    return result;",
   "\x7d",
   "",
   "static JSValue vec3ToJS(JSContext* ctx, const glm::vec3& vec) \x7b",
   "    JSValue obj = JS_NewObject(ctx);",
   "    JS_SetPropertyStr(ctx, obj, \"x\", JS_NewFloat64(ctx, vec.x));",
   "    JS_SetPropertyStr(ctx, obj, \"y\", JS_NewFloat64(ctx, vec.y));",
   "    JS_SetPropertyStr(ctx, obj, \"z\", JS_NewFloat64(ctx, vec.z));",
   "    return obj;",
   "\x7d",
   "",
   "static glm::quat jsToQuat(JSContext* ctx, JSValue jsObj) \x7b",
   "    glm::quat result(1.0f, 0.0f, 0.0f, 0.0f);",
   "    JSValue w = JS_GetPropertyStr(ctx, jsObj, \"w\");",
   "    JSValue x = JS_GetPropertyStr(ctx, jsObj, \"x\");",
   "    JSValue y = JS_GetPropertyStr(ctx, jsObj, \"y\");",
   "    JSValue z = JS_GetPropertyStr(ctx, jsObj, \"z\");",
   "    double dw, dx, dy, dz;",
   "    JS_ToFloat64(ctx, &dw, w);",
   "    JS_ToFloat64(ctx, &dx, x);",
   "    JS_ToFloat64(ctx, &dy, y);",
   "    JS_ToFloat64(ctx, &dz, z);",
   "    result.w = static_cast<f32>(dw);",
   "    result.x = static_cast<f32>(dx);",
   "    result.y = static_cast<f32>(dy);",
   "    result.z = static_cast<f32>(dz);",
   "    JS_FreeValue(ctx, w);",
   "    JS_FreeValue(ctx, x);",
   "    JS_FreeValue(ctx, y);",
   "    JS_FreeValue(ctx, z);",
   "    return result;",
   "\x7d",
   "",
   "static JSValue quatToJS(JSContext* ctx, const glm::quat& quat) \x7b",
   "    JSValue obj = JS_NewObject(ctx);",
   "    JS_SetPropertyStr(ctx, obj, \"w\", JS_NewFloat64(ctx, quat.w));",
   "    JS_SetPropertyStr(ctx, obj, \"x\", JS_NewFloat64(ctx, quat.x));",
   "    JS_SetPropertyStr(ctx, obj, \"y\", JS_NewFloat64(ctx, quat.y));",
   "    JS_SetPropertyStr(ctx, obj, \"z\", JS_NewFloat64(ctx, quat.z));",
   "    return obj;",
   "\x7d",
   ""]

/-- The line(s) `QuickJSGenerator._generate_component_bindings` emits in the
getter for one property: a converter call for vec3/quat/f32/float raw types,
an explicit TODO placeholder comment otherwise. -/
def qjsGetPropLine (p : GBProperty) : String :=
  if strContains p.type "vec3" then
    "    JS_SetPropertyStr(ctx, obj, \"" ++ p.name ++ "\", vec3ToJS(ctx, comp." ++ p.name ++ "));"
  else if strContains p.type "quat" then
    "    JS_SetPropertyStr(ctx, obj, \"" ++ p.name ++ "\", quatToJS(ctx, comp." ++ p.name ++ "));"
  else if strContains p.type "f32" || strContains p.type "float" then
    "    JS_SetPropertyStr(ctx, obj, \"" ++ p.name ++ "\", JS_NewFloat64(ctx, comp." ++ p.name ++ "));"
  else
    "    // TODO: Add converter for " ++ p.type

/-- The lines `QuickJSGenerator._generate_component_bindings` emits in the
setter for one property: always a `JS_GetPropertyStr` read and a
`JS_FreeValue`, with a conversion/assignment in between only for
vec3/quat/f32/float raw types (and nothing at all otherwise). -/
def qjsSetPropLines (p : GBProperty) : List String :=
  ["    JSValue " ++ p.name ++ "Val = JS_GetPropertyStr(ctx, argv[1], \"" ++ p.name ++ "\");"]
  ++ (if strContains p.type "vec3" then
        ["    comp." ++ p.name ++ " = jsToVec3(ctx, " ++ p.name ++ "Val);"]
      else if strContains p.type "quat" then
        ["    comp." ++ p.name ++ " = jsToQuat(ctx, " ++ p.name ++ "Val);"]
      else if strContains p.type "f32" || strContains p.type "float" then
        ["    double d" ++ p.name ++ ";",
         "    JS_ToFloat64(ctx, &d" ++ p.name ++ ", " ++ p.name ++ "Val);",
         "    comp." ++ p.name ++ " = static_cast<f32>(d" ++ p.name ++ ");"]
      else [])
  ++ ["    JS_FreeValue(ctx, " ++ p.name ++ "Val);"]

/-- `QuickJSGenerator._generate_component_bindings`. -/
def qjsComponentBindings (c : GBComponent) : List String :=
  let full := gbFullName c
  [sepLine,
   "// " ++ c.name ++ " Component Bindings",
   sepLine,
   ""]
  ++ ["static JSValue js_Registry_get" ++ c.name ++ "(JSContext* ctx, JSValueConst this_val, int argc, JSValueConst* argv) \x7b",
      "    u32 entity;",
      "    JS_ToUint32(ctx, &entity, argv[0]);",
      "    if (!g_registry->has<" ++ full ++ ">(entity)) \x7b",
      "        return JS_ThrowReferenceError(ctx, \"Entity does not have " ++ c.name ++ " component\");",
      "    \x7d",
      "    auto& comp = g_registry->get<" ++ full ++ ">(entity);",
      "    JSValue obj = JS_NewObject(ctx);"]
  ++ c.properties.map qjsGetPropLine
  ++ ["    return obj;", "\x7d", ""]
  ++ ["static JSValue js_Registry_add" ++ c.name ++ "(JSContext* ctx, JSValueConst this_val, int argc, JSValueConst* argv) \x7b",
      "    u32 entity;",
      "    JS_ToUint32(ctx, &entity, argv[0]);",
      "    " ++ full ++ " comp;"]
  ++ c.properties.flatMap qjsSetPropLines
  ++ ["    g_registry->emplaceOrReplace<" ++ full ++ ">(entity, comp);",
      "    return JS_UNDEFINED;",
      "\x7d",
      ""]

/-- `QuickJSGenerator._generate_main_bind`. -/
def qjsMainBind (comps : List GBComponent) : List String :=
  [sepLine,
   "// Main Binding Function",
   sepLine,
   "",
   "void bindECS(ScriptContext& ctx, ecs::Registry& registry) \x7b",
   "    g_registry = &registry;",
   "    JSContext* jsCtx = ctx.getJSContext();",
   "    JSValue global = JS_GetGlobalObject(jsCtx);",
   "    JSValue registryObj = JS_NewObject(jsCtx);",
   "",
   "    // Entity management",
   "    JS_SetPropertyStr(jsCtx, registryObj, \"create\",",
   "                     JS_NewCFunction(jsCtx, js_Registry_create, \"create\", 0));",
   "    JS_SetPropertyStr(jsCtx, registryObj, \"destroy\",",
   "                     JS_NewCFunction(jsCtx, js_Registry_destroy, \"destroy\", 1));",
   "    JS_SetPropertyStr(jsCtx, registryObj, \"valid\",",
   "                     JS_NewCFunction(jsCtx, js_Registry_valid, \"valid\", 1));",
   ""]
  ++ comps.flatMap (fun c =>
      ["    // " ++ c.name ++ " component",
       "    JS_SetPropertyStr(jsCtx, registryObj, \"get" ++ c.name ++ "\",",
       "                     JS_NewCFunction(jsCtx, js_Registry_get" ++ c.name ++ ", \"get" ++ c.name ++ "\", 1));",
       "    JS_SetPropertyStr(jsCtx, registryObj, \"add" ++ c.name ++ "\",",
       "                     JS_NewCFunction(jsCtx, js_Registry_add" ++ c.name ++ ", \"add" ++ c.name ++ "\", 2));",
       ""])
  ++ ["    JS_SetPropertyStr(jsCtx, global, \"Registry\", registryObj);",
      "    JS_FreeValue(jsCtx, global);",
      "\x7d",
      ""]

/-- The full line list of `QuickJSGenerator.generate`. -/
def qjsLines (comps : List GBComponent) : List String :=
  ["/**",
   " * @file    ECSBindings.generated.cpp",
   " * @brief   Auto-generated QuickJS bindings for Native platform",
   " * @details Generated by tools/generate_bindings.py - DO NOT EDIT MANUALLY",
   " *",
   " * @author  ESEngine Binding Generator",
   " * @date    2026",
   " */",
   "",
   "#ifdef ES_SCRIPTING_ENABLED",
   "",
   "#include \"ECSBindings.hpp\"",
   "#include \"../../ecs/Registry.hpp\"",
   "#include \"../../math/Math.hpp\"",
   ""]
  ++ gbDedupLoop [] (comps.map (gbIncludeLine "../../"))
  ++ ["",
      "namespace esengine::scripting \x7b",
      "",
      "// Global registry pointer for C callbacks",
      "static ecs::Registry* g_registry = nullptr;",
      ""]
  ++ qjsHelpers
  ++ comps.flatMap qjsComponentBindings
  ++ qjsMainBind comps
  ++ ["",
      "\x7d  // namespace esengine::scripting",
      "",
      "#endif  // ES_SCRIPTING_ENABLED",
      ""]

/-- `QuickJSGenerator.generate`. -/
def qjsGenerate (comps : List GBComponent) : String := joinLines (qjsLines comps)

/-! ## Pattern matching machinery

Total, executable models of the fixed regular expressions the two tools
compile.  Each matcher takes the text at a candidate start position and
returns the captured groups together with the unconsumed remainder; the
greedy/lazy behaviour of each Python pattern is reproduced explicitly
(ascending candidate lengths for lazy groups, maximal munch for greedy
character classes; for these patterns no other backtracking can change the
outcome because adjacent tokens draw from disjoint character sets). -/

/-- Match a literal, returning the remainder. -/
def litm (pat : List Char) (s : List Char) : Option (List Char) :=
  if lpre pat s then some (s.drop pat.length) else none

/-- Greedy `p*`: the maximal munch and the remainder. -/
def starP (p : Char → Bool) : List Char → List Char × List Char
  | [] => ([], [])
  | c :: cs =>
    if p c then
      let (t, r) := starP p cs
      (c :: t, r)
    else ([], c :: cs)

/-- Greedy `p+`: fails on an empty munch. -/
def plusP (p : Char → Bool) (s : List Char) : Option (List Char × List Char) :=
  match s with
  | c :: cs =>
    if p c then
      let (t, r) := starP p cs
      some (c :: t, r)
    else none
  | [] => none

/-- `re.finditer` driver: repeatedly try the matcher at each position,
resuming after the end of each (non-empty) match, recording `match.end()`
as an absolute offset. -/
def scanAllF {α} (m : List Char → Option (α × List Char)) :
    Nat → List Char → Nat → List (α × Nat)
  | 0, _, _ => []
  | fuel + 1, s, pos =>
    match m s with
    | some (a, rest) =>
      let consumed := s.length - rest.length
      if consumed = 0 then []
      else (a, pos + consumed) :: scanAllF m fuel rest (pos + consumed)
    | none =>
      match s with
      | [] => []
      | _ :: t => scanAllF m fuel t (pos + 1)

/-- All matches of `m` over `s`, with their absolute end offsets. -/
def scanAll {α} (m : List Char → Option (α × List Char)) (s : List Char) : List (α × Nat) :=
  scanAllF m (s.length + 1) s 0

/-- `re.search`: the first match, scanning start positions left to right. -/
def searchFirst {α} (m : List Char → Option (α × List Char)) : List Char → Option α
  | [] => (m []).map (·.1)
  | c :: cs =>
    match m (c :: cs) with
    | some (a, _) => some a
    | none => searchFirst m cs

/-- Python `str.find(c, start)` as an absolute index. -/
def findCharFrom (c : Char) (s : List Char) (start : Nat) : Option Nat :=
  ((s.drop start).findIdx? (· = c)).map (· + start)

/-- First index of substring `pat` at or after `start`. -/
def findSubIdx (pat : List Char) : List Char → Option Nat
  | [] => if lpre pat [] then some 0 else none
  | c :: cs => if lpre pat (c :: cs) then some 0 else (findSubIdx pat cs).map (· + 1)

/-- Python `str.find(pat, start)` as an absolute index. -/
def findSubFrom (pat : List Char) (s : List Char) (start : Nat) : Option Nat :=
  (findSubIdx pat (s.drop start)).map (· + start)

/-- Python slice `s[a:b]`. -/
def slice (s : List Char) (a b : Nat) : List Char := (s.drop a).take (b - a)

/-! ## `eht.py` CppParser -/

/-- `RE_NAMESPACE` (`namespace\s+([\w:]+)\s*\x7b`) at one position. -/
def matchNs (s : List Char) : Option (String × List Char) := do
  let s1 ← litm "namespace".data s
  let (_, s2) ← plusP isSpaceChar s1
  let (g, s3) ← plusP (fun c => isWordChar c || c = ':') s2
  let (_, s4) := starP isSpaceChar s3
  let s5 ← litm "\x7b".data s4
  return (String.mk g, s5)

/-- `RE_COMPONENT` (`ES_COMPONENT\s*\(\s*\)\s*struct\s+(\w+)`) at one
position, capturing the struct name. -/
def matchCompEht (s : List Char) : Option (String × List Char) := do
  let s1 ← litm "ES_COMPONENT".data s
  let (_, s2) := starP isSpaceChar s1
  let s3 ← litm "(".data s2
  let (_, s4) := starP isSpaceChar s3
  let s5 ← litm ")".data s4
  let (_, s6) := starP isSpaceChar s5
  let s7 ← litm "struct".data s6
  let (_, s8) ← plusP isSpaceChar s7
  let (nm, s9) ← plusP isWordChar s8
  return (String.mk nm, s9)

/-- `RE_ENUM` (`ES_ENUM\s*\(\s*\)\s*enum\s+class\s+(\w+)(?:\s*:\s*(\w+))?`)
at one position, capturing the name and the optional underlying type. -/
def matchEnumEht (s : List Char) : Option ((String × Option String) × List Char) := do
  let s1 ← litm "ES_ENUM".data s
  let (_, s2) := starP isSpaceChar s1
  let s3 ← litm "(".data s2
  let (_, s4) := starP isSpaceChar s3
  let s5 ← litm ")".data s4
  let (_, s6) := starP isSpaceChar s5
  let s7 ← litm "enum".data s6
  let (_, s8) ← plusP isSpaceChar s7
  let s9 ← litm "class".data s8
  let (_, s10) ← plusP isSpaceChar s9
  let (nm, s11) ← plusP isWordChar s10
  let (_, t1) := starP isSpaceChar s11
  match t1 with
  | ':' :: t2 =>
    let (_, t3) := starP isSpaceChar t2
    match plusP isWordChar t3 with
    | some (u, t4) => return ((String.mk nm, some (String.mk u)), t4)
    | none => return ((String.mk nm, none), s11)
  | _ => return ((String.mk nm, none), s11)

/-- `RE_ENUM_VALUE` (`(\w+)\s*(?:=\s*\d+)?\s*,?`) at one position. -/
def matchEnumVal (s : List Char) : Option (String × List Char) := do
  let (nm, s1) ← plusP isWordChar s
  let (_, s2) := starP isSpaceChar s1
  let s3 :=
    match s2 with
    | '=' :: t =>
      let (_, t1) := starP isSpaceChar t
      match plusP isDigitChar t1 with
      | some (_, t2) => t2
      | none => s2
    | _ => s2
  let (_, s4) := starP isSpaceChar s3
  let s5 := match s4 with | ',' :: t => t | _ => s4
  return (String.mk nm, s5)

/-- The tail of `RE_PROPERTY` after the lazy type group, for `eht.py`:
`\s+(\w+)\s*(?:\x7b([^\x7d]*)\x7d|=\s*([^;]+))?;` — the declared name, the
optional brace initializer, the optional `=`-initializer, and the remainder. -/
def ehtPropRest (s : List Char) : Option ((String × Option String × Option String) × List Char) := do
  let (_, s1) ← plusP isSpaceChar s
  let (nm, s2) ← plusP isWordChar s1
  let (_, s3) := starP isSpaceChar s2
  match s3 with
  | '\x7b' :: t =>
    let (inner, t1) := starP (fun c => !(c = '\x7d')) t
    match t1 with
    | '\x7d' :: ';' :: t3 => return ((String.mk nm, some (String.mk inner), none), t3)
    | _ => none
  | '=' :: t =>
    let (ws, t1) := starP isSpaceChar t
    match plusP (fun c => !(c = ';')) t1 with
    | some (v, t2) =>
      match t2 with
      | ';' :: t3 => return ((String.mk nm, none, some (String.mk v)), t3)
      | _ => none
    | none =>
      -- `\s*` gives one character back so that `[^;]+` (which admits
      -- whitespace) can take it: the captured group is the last space.
      match t1 with
      | ';' :: t3 =>
        (match ws.reverse with
         | w :: _ => return ((String.mk nm, none, some (String.mk [w])), t3)
         | [] => none)
      | _ => none
  | ';' :: t3 => return ((String.mk nm, none, none), t3)
  | _ => none

/-- The lazy type group `([^;]+?)` of `RE_PROPERTY`: candidate lengths are
tried ascending (shortest match wins, as for a Python lazy quantifier),
each candidate containing no `';'`. -/
def propLazy (restMatch : List Char → Option ((String × Option String × Option String) × List Char))
    (acc : List Char) :
    List Char → Option ((String × String × Option String × Option String) × List Char)
  | [] => none
  | c :: cs =>
    if c = ';' then none
    else
      let acc' := acc ++ [c]
      match restMatch cs with
      | some ((nm, g3, g4), rest) => some ((String.mk acc', nm, g3, g4), rest)
      | none => propLazy restMatch acc' cs

/-- Backtracking of a greedy `\s*` that precedes a lazy group admitting
whitespace: try the maximal munch first, then give back one trailing space
at a time (Python explores the `\s*` lengths longest-first, re-running the
lazy group for each). -/
def wsGive {α} (try1 : List Char → Option α) : List Char → List Char → Option α
  | wsRev, tail =>
    match try1 tail with
    | some r => some r
    | none =>
      match wsRev with
      | [] => none
      | w :: wr => wsGive try1 wr (w :: tail)

/-- `RE_PROPERTY` (`ES_PROPERTY\s*\(\s*\)\s*([^;]+?)\s+(\w+)\s*…;`,
`eht.py`) at one position: raw type text, name, optional brace initializer,
optional `=`-initializer. -/
def matchPropEht (s : List Char) :
    Option ((String × String × Option String × Option String) × List Char) := do
  let s1 ← litm "ES_PROPERTY".data s
  let (_, s2) := starP isSpaceChar s1
  let s3 ← litm "(".data s2
  let (_, s4) := starP isSpaceChar s3
  let s5 ← litm ")".data s4
  let (ws, s6) := starP isSpaceChar s5
  wsGive (propLazy ehtPropRest []) ws.reverse s6

/-- Python truthiness-based `group(3) or group(4)` followed by
`default.strip() if default else None`. -/
def pyDefault (g3 g4 : Option String) : Option String :=
  let d := match g3 with
    | some s => if s.isEmpty then g4 else some s
    | none => g4
  match d with
  | some s => if s.isEmpty then none else some (pyStrip s)
  | none => none

/-- The `Property` record `CppParser._parse_components` builds from one
`RE_PROPERTY` match. -/
def mkEhtProp (m : String × String × Option String × Option String) : Property :=
  { name := pyStrip m.2.1, cpp_type := pyStrip m.1, default_value := pyDefault m.2.2.1 m.2.2.2 }

/-- All properties extracted from a component body (`eht.py`). -/
def ehtProps (body : List Char) : List Property :=
  (scanAll matchPropEht body).map (fun x => mkEhtProp x.1)

/-- All enum value names extracted from an enum body (`eht.py`). -/
def ehtEnumValues (body : List Char) : List String :=
  (scanAll matchEnumVal body).map (·.1)

/-- The balanced-scan loop of `CppParser._parse_components`: the number of
characters consumed from the text after the opening brace until the brace
counter (starting at 1) returns to zero, or the text ends. -/
def ehtScanLen : List Char → Nat → Nat
  | _, 0 => 0
  | [], _ + 1 => 0
  | c :: cs, k + 1 =>
    1 + ehtScanLen cs (if c = '\x7b' then k + 2 else if c = '\x7d' then k else k + 1)

/-- `CppParser._parse_components` body extraction for a marker whose match
ends at `endPos`: find the next `'s'` brace, then balanced-scan; the body
slice includes both braces, or runs to the end of the text when the scan
never returns to balance. -/
def ehtBody (content : List Char) (endPos : Nat) : Option (List Char) :=
  (findCharFrom '\x7b' content endPos).map (fun bs =>
    let be := bs + 1 + ehtScanLen (content.drop (bs + 1)) 1
    slice content bs be)

/-- `CppParser._parse_components`. -/
def ehtParseComponents (content : List Char) (ns : String) (path : String) :
    List Component :=
  (scanAll matchCompEht content).filterMap (fun m =>
    (ehtBody content m.2).map (fun body =>
      { name := m.1, nspace := ns, properties := ehtProps body, header_path := path }))

/-- `CppParser._parse_enums`. -/
def ehtParseEnums (content : List Char) (ns : String) : List Enum :=
  (scanAll matchEnumEht content).filterMap (fun m =>
    (findCharFrom '\x7b' content m.2).bind (fun bs =>
      (findSubFrom "\x7d;".data content bs).map (fun be =>
        { name := m.1.1, nspace := ns,
          values := ehtEnumValues (slice content (bs + 1) be),
          underlying_type := m.1.2.getD "int" })))

/-- `CppParser.parse_file`: the enums and components contributed by one
file's text (the first `RE_NAMESPACE` match sets the namespace for all of
them). -/
def ehtParseFile (path : String) (content : String) : List Enum × List Component :=
  let ns := (searchFirst matchNs content.data).getD ""
  (ehtParseEnums content.data ns, ehtParseComponents content.data ns path)

/-- A file handed to `parse_directory`: `content = none` models a file whose
`read_text` raises (the only fallible step of `parse_file`). -/
structure PyFile where
  path : String
  content : Option String
deriving Repr, DecidableEq

/-- `CppParser.parse_directory` over the `.hpp` files of a directory tree,
in scan order: accumulated components, accumulated enums, and the warnings
printed for files whose parse raised. -/
def ehtParseDirectory : List PyFile → List Component × List Enum × List String
  | [] => ([], [], [])
  | f :: fs =>
    let (cs, es, ws) := ehtParseDirectory fs
    match f.content with
    | some text =>
      let (fes, fcs) := ehtParseFile f.path text
      (fcs ++ cs, fes ++ es, ws)
    | none => (cs, es, ("Warning: Failed to parse " ++ f.path) :: ws)

/-- `eht.py` `main`: parse every input directory in order, then either warn
and exit 1 (empty component list — nothing is generated or written), or
write the two generated artifacts and exit 0.  Filesystem writes are
modelled as the returned `(path, contents)` list. -/
def ehtMain (inputDirs : List (List PyFile)) (outputDir tsOutputDir : String) :
    Nat × List (String × String) :=
  let r := ehtParseDirectory inputDirs.flatten
  if r.1.isEmpty then (1, [])
  else
    (0, [(outputDir ++ "/WebBindings.generated.cpp", embind_generate r.1 r.2.1),
         (tsOutputDir ++ "/wasm.generated.ts", ts_generate r.1 r.2.1)])

/-! ## `generate_bindings.py` ComponentParser -/

/-- `COMPONENT_PATTERN` (`ES_COMPONENT\(\)\s*(?:struct|class)\s+(\w+)`) at
one position; note the parentheses here admit no interior whitespace. -/
def matchCompGB (s : List Char) : Option (String × List Char) := do
  let s1 ← litm "ES_COMPONENT()".data s
  let (_, s2) := starP isSpaceChar s1
  let s3 ← match litm "struct".data s2 with
    | some r => some r
    | none => litm "class".data s2
  let (_, s4) ← plusP isSpaceChar s3
  let (nm, s5) ← plusP isWordChar s4
  return (String.mk nm, s5)

/-- The brace-count loop of `ComponentParser.parse_file`: starting with
count 0 at `match.end()`, stop at the first closing brace that drives the
count to `-1`; returns the offset of that brace, or `none` when the loop
runs off the end of the text. -/
def gbScanLen : List Char → Nat → Option Nat
  | [], _ => none
  | c :: cs, count =>
    if c = '\x7d' then
      if count = 0 then some 0
      else (gbScanLen cs (count - 1)).map (· + 1)
    else if c = '\x7b' then (gbScanLen cs (count + 1)).map (· + 1)
    else (gbScanLen cs count).map (· + 1)

/-- The `component_body` slice of `ComponentParser.parse_file` for a marker
match ending at `endPos`: up to (excluding) the brace that drove the count
negative — or the empty slice when no such brace exists, because
`component_end` then keeps its initial value `component_start`. -/
def gbBody (content : List Char) (endPos : Nat) : List Char :=
  match gbScanLen (content.drop endPos) 0 with
  | some k => slice content endPos (endPos + k)
  | none => slice content endPos endPos

/-- The tail of the `generate_bindings.py` `PROPERTY_PATTERN` after the lazy
type group: `\s+(\w+)(?:\s*\x7b([^\x7d]*)\x7d|\s*=\s*([^;]+))?;` — unlike
`eht.py`, any whitespace after the name lives inside the optional branches,
so a bare declaration must end `name;` with no gap. -/
def gbPropRest (s : List Char) : Option ((String × Option String × Option String) × List Char) := do
  let (_, s1) ← plusP isSpaceChar s
  let (nm, s2) ← plusP isWordChar s1
  let braceTry : Option ((String × Option String × Option String) × List Char) :=
    (let (_, t0) := starP isSpaceChar s2
     match t0 with
     | '\x7b' :: t =>
       let (inner, t1) := starP (fun c => !(c = '\x7d')) t
       (match t1 with
        | '\x7d' :: ';' :: t3 => some ((String.mk nm, some (String.mk inner), none), t3)
        | _ => none)
     | _ => none)
  match braceTry with
  | some r => some r
  | none =>
    let eqTry : Option ((String × Option String × Option String) × List Char) :=
      (let (_, t0) := starP isSpaceChar s2
       match t0 with
       | '=' :: t =>
         let (ws, t1) := starP isSpaceChar t
         (match plusP (fun c => !(c = ';')) t1 with
          | some (v, t2) =>
            (match t2 with
             | ';' :: t3 => some ((String.mk nm, none, some (String.mk v)), t3)
             | _ => none)
          | none =>
            -- `\s*` gives one character back to the whitespace-admitting
            -- `[^;]+`: the captured group is the last space.
            match t1 with
            | ';' :: t3 =>
              (match ws.reverse with
               | w :: _ => some ((String.mk nm, none, some (String.mk [w])), t3)
               | [] => none)
            | _ => none)
       | _ => none)
    match eqTry with
    | some r => some r
    | none =>
      match s2 with
      | ';' :: t3 => some ((String.mk nm, none, none), t3)
      | _ => none

/-- `PROPERTY_PATTERN` (`generate_bindings.py`) at one position. -/
def matchPropGB (s : List Char) :
    Option ((String × String × Option String × Option String) × List Char) := do
  let s1 ← litm "ES_PROPERTY()".data s
  let (ws, s2) := starP isSpaceChar s1
  wsGive (propLazy gbPropRest []) ws.reverse s2

/-- The tail of `METHOD_PATTERN` after the closing paren of the attribute
list: `\s*([^(]+?)\s+(\w+)\s*\(([^)]*)\)`, with the return-type group lazy
(ascending candidate lengths, each candidate containing no `'('`). -/
def gbMethodRet (acc : List Char) :
    List Char → Option ((String × String × String) × List Char)
  | [] => none
  | c :: cs =>
    if c = '(' then none
    else
      let acc' := acc ++ [c]
      match (do
        let (_, t1) ← plusP isSpaceChar cs
        let (nm, t2) ← plusP isWordChar t1
        let (_, t3) := starP isSpaceChar t2
        let t4 ← litm "(".data t3
        let (ps, t5) := starP (fun x => !(x = ')')) t4
        let t6 ← litm ")".data t5
        return ((String.mk acc', String.mk nm, String.mk ps), t6)) with
      | some r => some r
      | none => gbMethodRet acc' cs

/-- The lazy attribute group `(.*?)` of `METHOD_PATTERN`: ascending
candidate lengths (starting at the empty string), candidates drawn from
non-newline characters, each followed by `')'` and a successful tail. -/
def gbMethodAttr (acc : List Char) :
    List Char → Option ((String × String × String × String) × List Char)
  | [] => none
  | c :: cs =>
    (match (if c = ')' then
              (let (ws, rest) := starP isSpaceChar cs
               wsGive (gbMethodRet []) ws.reverse rest |>.map (fun r =>
                 ((String.mk acc, r.1.1, r.1.2.1, r.1.2.2), r.2)))
            else none) with
     | some r => some r
     | none => if c = '\n' then none else gbMethodAttr (acc ++ [c]) cs)

/-- `METHOD_PATTERN` (`ES_METHOD\((.*?)\)\s*([^(]+?)\s+(\w+)\s*\(([^)]*)\)`)
at one position: attribute text, return type text, name, parameter text. -/
def matchMethodGB (s : List Char) :
    Option ((String × String × String × String) × List Char) := do
  let s1 ← litm "ES_METHOD(".data s
  gbMethodAttr [] s1

/-- Python `s.split(',')`. -/
def splitComma : List Char → List (List Char)
  | [] => [[]]
  | c :: cs =>
    if c = ',' then [] :: splitComma cs
    else match splitComma cs with
      | [] => [[c]]
      | p :: ps => (c :: p) :: ps

/-- Python `s.rsplit(None, 1)`: split once on the last whitespace run. -/
def pyRsplit1 (s : String) : List String :=
  let rev := s.data.reverse.dropWhile isSpaceChar
  match rev with
  | [] => []
  | _ =>
    let (nRev, rest) := rev.span (fun c => !isSpaceChar c)
    match rest with
    | [] => [⟨nRev.reverse⟩]
    | _ => [⟨(rest.dropWhile isSpaceChar).reverse⟩, ⟨nRev.reverse⟩]

/-- The parameter list `ComponentParser.parse_file` builds from the raw
parameter text: split on commas, strip, keep the pieces whose
`rsplit(None, 1)` yields exactly a type and a name. -/
def gbParseParams (paramsStr : String) : List (String × String) :=
  let ps := pyStrip paramsStr
  if ps.isEmpty then []
  else
    (splitComma ps.data).filterMap (fun piece =>
      let t := pyStrip ⟨piece⟩
      if t.isEmpty then none
      else
        match pyRsplit1 t with
        | [a, b] => some (a, b)
        | _ => none)

/-- The `Method` record built from one `METHOD_PATTERN` match. -/
def mkGBMethod (m : String × String × String × String) : GBMethod :=
  let attrs := pyStrip m.1
  { name := pyStrip m.2.2.1,
    return_type := pyStrip m.2.1,
    parameters := gbParseParams m.2.2.2,
    is_const := strContains attrs "const",
    is_static := strContains attrs "static" }

/-- `ComponentParser.parse_file`: all components contributed by one file. -/
def gbParseFile (path : String) (content : String) : List GBComponent :=
  let ns := (searchFirst matchNs content.data).getD ""
  (scanAll matchCompGB content.data).map (fun m =>
    let body := gbBody content.data m.2
    { name := m.1, nspace := ns,
      properties := (scanAll matchPropGB body).map (fun x =>
        { name := pyStrip x.1.2.1, type := pyStrip x.1.1,
          default_value := pyDefault x.1.2.2.1 x.1.2.2.2 }),
      methods := (scanAll matchMethodGB body).map (fun x => mkGBMethod x.1),
      header_path := replaceBackslash path,
      is_struct := true })

/-- `ComponentParser.parse_directory`: accumulated components and warnings. -/
def gbParseDirectory : List PyFile → List GBComponent × List String
  | [] => ([], [])
  | f :: fs =>
    let (cs, ws) := gbParseDirectory fs
    match f.content with
    | some text => (gbParseFile f.path text ++ cs, ws)
    | none => (cs, ("Warning: Failed to parse " ++ f.path) :: ws)

/-- `generate_bindings.py` `main`: parse the single input directory, then
either warn and exit 1 (empty component list, nothing generated or
written), or write the three generated artifacts and exit 0.  Filesystem
writes are modelled as the returned `(path, contents)` list. -/
def gbMain (inputFiles : List PyFile) (outputDir : String) :
    Nat × List (String × String) :=
  let r := gbParseDirectory inputFiles
  if r.1.isEmpty then (1, [])
  else
    (0, [(outputDir ++ "/WebBindings.generated.cpp", gbEmsGenerate r.1),
         ("bindings/esengine.d.ts", gbTsGenerate r.1),
         ("src/esengine/scripting/bindings/ECSBindings.generated.cpp", qjsGenerate r.1)])

/-! ## Specification-side definitions

The specification's type-classification table (§4.2), written from the
spec's words so the source's predicates can be compared against it. -/

/-- The five categories of the specification's type classification. -/
inductive TypeCategory where
  | primitive
  | valueMath
  | enumRef
  | opaqueHandle
  | unsupported
deriving Repr, DecidableEq

/-- Modelled from the spec: "Classification rules, in priority order:
(a) strip qualifiers to obtain a canonical string; (b) if canonical string
is in the fixed primitive set → Primitive; (c) if in the fixed
math-value-type set → ValueMathType; (d) if it matches a collected enum's
qualified or unqualified name → Enum-reference; (e) if it contains a
recognized handle naming convention or belongs to a recognized resource
namespace → OpaqueHandle; (f)/(g) otherwise → Unsupported."  The sets are
the source's (`PRIMITIVE_TYPES`, `GLM_TYPES`, the collected enum names,
the `Handle` / `resource::` conventions). -/
def classifySpec (enums : List Enum) (t : String) : TypeCategory :=
  let c := clean_type t
  if memStr c PRIMITIVE_TYPES then .primitive
  else if memStr c GLM_TYPES then .valueMath
  else if memEnumNames enums c then .enumRef
  else if strContains c "Handle" || strStarts c "resource::" then .opaqueHandle
  else .unsupported

/-- Side condition for relating `needs_wrapper` to the spec classification:
no collected enum name (bare or qualified) collides with a primitive or
math value type. -/
def enumsDisjoint (enums : List Enum) : Bool :=
  enums.all (fun e =>
    !memStr e.name PRIMITIVE_TYPES && !memStr e.name GLM_TYPES &&
    !memStr (e.nspace ++ "::" ++ e.name) PRIMITIVE_TYPES &&
    !memStr (e.nspace ++ "::" ++ e.name) GLM_TYPES)

/-! ## Output-projection helpers (reading the emitted text) -/

/-- The lines of an emitted document that start with a given prefix. -/
def linesWith (p : List Char) (l : List String) : List String :=
  l.filter (fun s => lpre p s.data)

/-- The prefix of a `value_object` registration line. -/
def voPrefix : List Char := "    value_object<".data

/-- The prefix of a `.field` registration line. -/
def fieldPrefix : List Char := "        .field(\"".data

/-! ## Concrete inputs used by the claim-level theorems -/

/-- A header with two marked structs inside a namespace. -/
def twoStructs : String :=
  "namespace ns \x7b\nES_COMPONENT() struct A \x7b ES_PROPERTY() f32 x; \x7d;\nES_COMPONENT() struct B \x7b ES_PROPERTY() f32 y; \x7d;\n\x7d\n"

/-- A marked struct at file top level (no enclosing namespace braces). -/
def topStruct : String :=
  "ES_COMPONENT() struct T \x7b ES_PROPERTY() f32 z; \x7d;"

/-- A marked struct whose body holds nested brace pairs, followed by a stray
marked property after the struct. -/
def nestedStruct : String :=
  "ES_COMPONENT() struct C \x7b ES_PROPERTY() glm::vec3 v\x7b1, 2\x7d; ES_PROPERTY() f32 s; \x7d; ES_PROPERTY() f32 after;"

/-- A marked struct whose brace span never closes (scan reaches EOF). -/
def untermStruct : String :=
  "ES_COMPONENT() struct Foo \x7b\n    ES_PROPERTY()\n    f32 x;\n"

/-- A component marker with no opening brace anywhere after it. -/
def noBraceStruct : String := "ES_COMPONENT() struct Bar"

/-- A top-level struct with a property, for the empty-body behaviour of the
`generate_bindings.py` scan. -/
def gbTopStruct : String := "ES_COMPONENT() struct W \x7b ES_PROPERTY() f32 a; \x7d"

/-- A mixed directory: two readable files around one whose read raises. -/
def mixedDir : List PyFile :=
  [⟨"good.hpp", some "ES_COMPONENT() struct G \x7b \x7d"⟩,
   ⟨"bad.hpp", none⟩,
   ⟨"also.hpp", some "ES_COMPONENT() struct H \x7b \x7d"⟩]

end Microes

namespace Microes

/-! ## General helper lemmas -/

theorem flatMap_ite_filter {α β} (p : α → Bool) (f : α → List β) :
    ∀ l : List α, (l.flatMap (fun a => if p a then f a else [])) = (l.filter p).flatMap f := by
  intro l
  induction l with
  | nil => rfl
  | cons a l ih =>
    by_cases h : p a = true
    · simp [List.filter_cons, h, ih]
    · simp only [Bool.not_eq_true] at h
      simp [List.filter_cons, h, ih]

theorem length_filterMap_countP {α β} (f : α → Option β) :
    ∀ l : List α, (l.filterMap f).length = l.countP (fun a => (f a).isSome) := by
  intro l
  induction l with
  | nil => rfl
  | cons a l ih =>
    cases h : f a with
    | none => simp [List.filterMap_cons, h, List.countP_cons, ih]
    | some b => simp [List.filterMap_cons, h, List.countP_cons, ih]

theorem filter_flatMap {α β} (p : β → Bool) (f : α → List β) :
    ∀ l : List α, (l.flatMap f).filter p = l.flatMap (fun a => (f a).filter p) := by
  intro l
  induction l with
  | nil => rfl
  | cons a l ih => simp [List.flatMap_cons, List.filter_append, ih]

/-! ## Order lemmas for the `sorted(set)` rendering -/

theorem lexLe_total : ∀ a b : List Char, lexLe a b = true ∨ lexLe b a = true := by
  intro a
  induction a with
  | nil => intro b; left; rfl
  | cons x xs ih =>
    intro b
    cases b with
    | nil => right; rfl
    | cons y ys =>
      by_cases e1 : x.toNat < y.toNat
      · left; simp [lexLe, e1]
      · by_cases e2 : x.toNat = y.toNat
        · rcases ih ys with h2 | h2
          · left; simp [lexLe, e1, e2, h2]
          · right
            simp [lexLe, (by omega : ¬ y.toNat < x.toNat), (by omega : y.toNat = x.toNat), h2]
        · right; simp [lexLe, (by omega : y.toNat < x.toNat)]

theorem lexLe_trans :
    ∀ a b c : List Char, lexLe a b = true → lexLe b c = true → lexLe a c = true := by
  intro a
  induction a with
  | nil => intro b c _ _; rfl
  | cons x xs ih =>
    intro b c hab hbc
    cases b with
    | nil => simp [lexLe] at hab
    | cons y ys =>
      cases c with
      | nil => simp [lexLe] at hbc
      | cons z zs =>
        simp only [lexLe] at hab hbc ⊢
        by_cases e2 : y.toNat < z.toNat
        · by_cases e1 : x.toNat < y.toNat
          · simp [(show x.toNat < z.toNat by omega)]
          · by_cases e1' : x.toNat = y.toNat
            · simp [(show x.toNat < z.toNat by omega)]
            · rw [if_neg e1, if_neg e1'] at hab; exact absurd hab (by simp)
        · by_cases e2' : y.toNat = z.toNat
          · by_cases e1 : x.toNat < y.toNat
            · simp [(show x.toNat < z.toNat by omega)]
            · by_cases e1' : x.toNat = y.toNat
              · rw [if_neg e1, if_pos e1'] at hab
                rw [if_neg e2, if_pos e2'] at hbc
                rw [if_neg (by omega : ¬ x.toNat < z.toNat),
                    if_pos (by omega : x.toNat = z.toNat)]
                exact ih ys zs hab hbc
              · rw [if_neg e1, if_neg e1'] at hab; exact absurd hab (by simp)
          · rw [if_neg e2, if_neg e2'] at hbc; exact absurd hbc (by simp)

theorem strLe_total (a b : String) : strLe a b = true ∨ strLe b a = true :=
  lexLe_total a.data b.data

theorem mem_insLe {x a : String} : ∀ {l : List String}, x ∈ insLe a l → x = a ∨ x ∈ l := by
  intro l
  induction l with
  | nil => intro h; simp [insLe] at h; exact Or.inl h
  | cons b bs ih =>
    intro h
    by_cases hc : strLe a b = true
    · simp only [insLe, hc, if_true] at h
      rcases List.mem_cons.mp h with h | h
      · exact Or.inl h
      · exact Or.inr h
    · simp only [Bool.not_eq_true] at hc
      simp only [insLe, hc, Bool.false_eq_true, if_false] at h
      rcases List.mem_cons.mp h with h | h
      · exact Or.inr (by simp [h])
      · rcases ih h with h | h
        · exact Or.inl h
        · exact Or.inr (List.mem_cons_of_mem _ h)

theorem pairwise_insLe (a : String) :
    ∀ {l : List String}, List.Pairwise (fun x y => strLe x y = true) l →
      List.Pairwise (fun x y => strLe x y = true) (insLe a l) := by
  intro l
  induction l with
  | nil => intro _; simp [insLe]
  | cons b bs ih =>
    intro hp
    rcases List.pairwise_cons.mp hp with ⟨hb, hbs⟩
    by_cases hc : strLe a b = true
    · simp only [insLe, hc, if_true]
      refine List.pairwise_cons.mpr ⟨?_, hp⟩
      intro x hx
      rcases List.mem_cons.mp hx with rfl | hx
      · exact hc
      · exact lexLe_trans _ _ _ hc (hb x hx)
    · have hc' : strLe a b = false := by simpa using hc
      simp only [insLe, hc', Bool.false_eq_true, if_false]
      refine List.pairwise_cons.mpr ⟨?_, ih hbs⟩
      intro x hx
      rcases mem_insLe hx with rfl | hx
      · rcases strLe_total x b with h | h
        · exact absurd h (by simp [hc'])
        · exact h
      · exact hb x hx

theorem pairwise_sortLe :
    ∀ l : List String, List.Pairwise (fun x y => strLe x y = true) (sortLe l) := by
  intro l
  induction l with
  | nil => simp [sortLe]
  | cons a as ih => exact pairwise_insLe a ih

/-! ## First-occurrence deduplication of the include blocks -/

theorem gbDedupLoop_eq :
    ∀ (l : List String) (seen : List String),
      gbDedupLoop seen l = (dedupFirst l).filter (fun x => !memStr x seen) := by
  intro l
  induction l with
  | nil => intro seen; rfl
  | cons a as ih =>
    intro seen
    by_cases h : memStr a seen = true
    · simp only [gbDedupLoop, h, if_true, dedupFirst, List.filter_cons, h,
        Bool.not_true, ih]
      rw [List.filter_filter]
      refine List.filter_congr ?_
      intro x _
      by_cases hx : x = a
      · subst hx; simp [h]
      · simp [hx]
    · have h' : memStr a seen = false := by simpa using h
      simp only [gbDedupLoop, h', Bool.false_eq_true, if_false, dedupFirst,
        List.filter_cons, Bool.not_false, if_true, ih]
      rw [List.filter_filter]
      refine congrArg (List.cons a) (List.filter_congr ?_)
      intro x _
      by_cases hx : x = a
      · subst hx; simp [memStr]
      · simp [memStr, hx]

/-! ## Relating the source's bridge predicates to the spec classification -/

theorem prim_not_handle :
    ∀ s : String, memStr s PRIMITIVE_TYPES = true →
      (strContains s "Handle" || strStarts s "resource::") = false := by
  intro s h
  simp only [PRIMITIVE_TYPES, memStr, Bool.or_eq_true, decide_eq_true_eq] at h
  rcases h with rfl | rfl | rfl | rfl | rfl | rfl | rfl | rfl | rfl | rfl | rfl | rfl | rfl | rfl | rfl | h
  all_goals first
  | decide
  | exact absurd h (by simp [memStr])

theorem glm_not_handle :
    ∀ s : String, memStr s GLM_TYPES = true →
      (strContains s "Handle" || strStarts s "resource::") = false := by
  intro s h
  simp only [GLM_TYPES, memStr, Bool.or_eq_true, decide_eq_true_eq] at h
  rcases h with rfl | rfl | rfl | rfl | rfl | h
  all_goals first
  | decide
  | exact absurd h (by simp [memStr])

theorem enum_not_prim_glm (enums : List Enum) (hd : enumsDisjoint enums = true) :
    ∀ s : String, memEnumNames enums s = true →
      memStr s PRIMITIVE_TYPES = false ∧ memStr s GLM_TYPES = false := by
  intro s h
  rw [memEnumNames, List.any_eq_true] at h
  rcases h with ⟨e, he, hcase⟩
  rw [enumsDisjoint, List.all_eq_true] at hd
  have hde := hd e he
  simp only [Bool.and_eq_true, Bool.not_eq_true'] at hde
  simp only [Bool.or_eq_true, Bool.and_eq_true, decide_eq_true_eq] at hcase
  rcases hcase with rfl | ⟨_, rfl⟩
  · exact ⟨hde.1.1.1, hde.1.1.2⟩
  · exact ⟨hde.1.2, hde.2⟩

theorem bridge_classify (enums : List Enum) (hd : enumsDisjoint enums = true) (t : String) :
    (is_enum enums t || is_handle t) = true ↔
      (classifySpec enums t = .enumRef ∨ classifySpec enums t = .opaqueHandle) := by
  rw [is_enum, is_handle, classifySpec]
  by_cases hp : memStr (clean_type t) PRIMITIVE_TYPES = true
  · have hh := prim_not_handle _ hp
    have he : memEnumNames enums (clean_type t) = false := by
      by_cases h : memEnumNames enums (clean_type t) = true
      · exact absurd (enum_not_prim_glm enums hd _ h).1 (by simp [hp])
      · simpa using h
    simp [hp, he, hh]
  · have hp' : memStr (clean_type t) PRIMITIVE_TYPES = false := by simpa using hp
    by_cases hg : memStr (clean_type t) GLM_TYPES = true
    · have hh := glm_not_handle _ hg
      have he : memEnumNames enums (clean_type t) = false := by
        by_cases h : memEnumNames enums (clean_type t) = true
        · exact absurd (enum_not_prim_glm enums hd _ h).2 (by simp [hg])
        · simpa using h
      simp [hp', hg, he, hh]
    · have hg' : memStr (clean_type t) GLM_TYPES = false := by simpa using hg
      by_cases he : memEnumNames enums (clean_type t) = true
      · simp [hp', hg', he]
      · have he' : memEnumNames enums (clean_type t) = false := by simpa using he
        by_cases hh : (strContains (clean_type t) "Handle" ||
            strStarts (clean_type t) "resource::") = true
        · simp [hp', hg', he', hh]
        · have hh' : (strContains (clean_type t) "Handle" ||
              strStarts (clean_type t) "resource::") = false := by simpa using hh
          simp [hp', hg', he', hh']

/-! ## C2 -/

/-- C2, counterexample to the claim as frozen: with a collected enum named
`float` and a component `P` whose single property has raw type `float`,
`needs_wrapper` is true although no property classifies (per the spec's
priority order, rule (b) before (d)) as Enum-reference or OpaqueHandle —
and the component receives a shadow record all the same. -/
theorem c2_counterexample :
    needs_wrapper [⟨"float", "", ["A"], "int"⟩]
        ⟨"P", "", [⟨"x", "float", none⟩], ""⟩ = true
    ∧ (⟨"P", "", [⟨"x", "float", none⟩], ""⟩ : Component).properties.map
        (fun p => classifySpec [⟨"float", "", ["A"], "int"⟩] p.cpp_type)
        = [.primitive]
    ∧ "struct PJS \x7b" ∈
        embind_gen_components [⟨"float", "", ["A"], "int"⟩]
          [⟨"P", "", [⟨"x", "float", none⟩], ""⟩] := by
  decide

/-- C2 (amended): provided no collected enum name (bare or qualified)
collides with a primitive or math value type, `needs_wrapper(C)` is true
iff some property of `C` classifies as Enum-reference or OpaqueHandle; and
`_gen_components` emits the shadow record plus the two conversion functions
exactly for the components with `needs_wrapper`, in schema order. -/
theorem c2_needs_bridge :
    ∀ (enums : List Enum) (comps : List Component),
      enumsDisjoint enums = true →
      (∀ c ∈ comps,
        (needs_wrapper enums c = true ↔
          ∃ p ∈ c.properties,
            classifySpec enums p.cpp_type = .enumRef ∨
            classifySpec enums p.cpp_type = .opaqueHandle))
      ∧ embind_gen_components enums comps =
          [sepLine, "// Components", sepLine, ""]
          ++ (comps.filter (needs_wrapper enums)).flatMap (wrapperBlock enums)
          ++ ["EMSCRIPTEN_BINDINGS(esengine_components) \x7b"]
          ++ comps.flatMap (voBlock enums)
          ++ ["\x7d", ""] := by
  intro enums comps hd
  constructor
  · intro c _
    rw [needs_wrapper, List.any_eq_true]
    constructor
    · rintro ⟨p, hp, hcond⟩
      exact ⟨p, hp, (bridge_classify enums hd p.cpp_type).mp hcond⟩
    · rintro ⟨p, hp, hcond⟩
      exact ⟨p, hp, (bridge_classify enums hd p.cpp_type).mpr hcond⟩
  · rw [embind_gen_components, flatMap_ite_filter]

/-- C2 witness: a realistic schema (an enum `esengine::Facing`, a component
with an enum-typed property and one with only plain properties) satisfying
the side condition, at which the amended claim is instantiated. -/
theorem c2_needs_bridge_witness :
    enumsDisjoint [⟨"Facing", "esengine", ["N"], "int"⟩] = true
    ∧ (needs_wrapper [⟨"Facing", "esengine", ["N"], "int"⟩]
        ⟨"Transform", "esengine",
          [⟨"facing", "Facing", none⟩, ⟨"s", "f32", none⟩], "p.hpp"⟩ = true ↔
        ∃ p ∈ (⟨"Transform", "esengine",
          [⟨"facing", "Facing", none⟩, ⟨"s", "f32", none⟩], "p.hpp"⟩ : Component).properties,
          classifySpec [⟨"Facing", "esengine", ["N"], "int"⟩] p.cpp_type = .enumRef ∨
          classifySpec [⟨"Facing", "esengine", ["N"], "int"⟩] p.cpp_type = .opaqueHandle)
    ∧ needs_wrapper [⟨"Facing", "esengine", ["N"], "int"⟩]
        ⟨"Transform", "esengine",
          [⟨"facing", "Facing", none⟩, ⟨"s", "f32", none⟩], "p.hpp"⟩ = true
    ∧ needs_wrapper [⟨"Facing", "esengine", ["N"], "int"⟩]
        ⟨"Tag", "esengine", [⟨"n", "std::string", none⟩], "p.hpp"⟩ = false :=
  ⟨by decide,
   (c2_needs_bridge [⟨"Facing", "esengine", ["N"], "int"⟩]
      [⟨"Transform", "esengine",
         [⟨"facing", "Facing", none⟩, ⟨"s", "f32", none⟩], "p.hpp"⟩]
      (by decide)).1 _ (by simp),
   by decide, by decide⟩

/-! ## C6 -/

/-- C6, counterexample to the claim as frozen: the canonical string
`TextureHandle` matches a collected enum's name, yet the native-embedding
projection yields `u32`, not `i32`, because `get_js_type` tests the handle
convention before the enum set. -/
theorem c6_counterexample :
    is_enum [⟨"TextureHandle", "", ["A"], "int"⟩] "TextureHandle" = true
    ∧ get_js_type [⟨"TextureHandle", "", ["A"], "int"⟩] "TextureHandle" = "u32" := by
  decide

/-- C6 (amended): in `get_js_type` the OpaqueHandle rule is applied before
the Enum-reference rule, so a type whose canonical string matches a
collected enum projects to `i32` exactly when it does not also satisfy the
handle convention; when it does, it projects to `u32`. -/
theorem c6_projection :
    ∀ (enums : List Enum) (t : String),
      is_enum enums (clean_type t) = true →
      get_js_type enums t = (if is_handle (clean_type t) then "u32" else "i32") := by
  intro enums t h
  rw [get_js_type]
  by_cases hh : is_handle (clean_type t) = true
  · simp [hh]
  · have hh' : is_handle (clean_type t) = false := by simpa using hh
    simp [hh', h]

/-- C6 witness: a plain enum-named type projects to `i32`; an enum whose
name carries the handle convention projects to `u32`. -/
theorem c6_projection_witness :
    is_enum [⟨"Facing", "", ["N"], "int"⟩] (clean_type "Facing") = true
    ∧ get_js_type [⟨"Facing", "", ["N"], "int"⟩] "Facing" = "i32"
    ∧ get_js_type [⟨"MeshHandle", "", ["A"], "int"⟩] "MeshHandle" = "u32" :=
  ⟨by decide,
   by
     rw [c6_projection [⟨"Facing", "", ["N"], "int"⟩] "Facing" (by decide)]
     decide,
   by
     rw [c6_projection [⟨"MeshHandle", "", ["A"], "int"⟩] "MeshHandle" (by decide)]
     decide⟩

/-! ## C9 -/

/-- C9: `clean_type` removes `const` as a bare substring, so a type string
whose original spelling is in the enum-name set no longer matches after
cleaning, and falls through every lookup table to the dynamic defaults
(`any`), in both tools. -/
theorem c9_const_mangling :
    (∀ (enums : List Enum) (t : String),
      memEnumNames enums t = true →
      memEnumNames enums (clean_type t) = false →
      is_enum enums t = false)
    ∧ (∀ (enums : List Enum) (t : String),
        lookupTS (clean_type t) = none →
        is_enum enums (clean_type t) = false →
        is_handle (clean_type t) = false →
        to_typescript enums t = "any")
    ∧ (∀ t : String,
        gbTypeMap.find? (fun p => p.1 = gbCanon t) = none →
        strStarts (gbCanon t) "glm::" = false →
        gb_cpp_to_ts t = "any") := by
  refine ⟨?_, ?_, ?_⟩
  · intro enums t _ h2
    rw [is_enum, h2]
  · intro enums t h1 h2 h3
    rw [to_typescript, h1]
    rw [is_enum] at h2
    rw [is_handle] at h3
    simp only [is_enum, is_handle, h2, h3]
    simp [h2, h3]
  · intro t h1 h2
    rw [gb_cpp_to_ts, h1]
    simp [h2]

/-- C9 witness: `my_constants::Flag` has `const` as an inner substring; its
canonical string is the mangled `my_ants::Flag`, so although the original
spelling is in the enum-name set the lookups fail and both emitters fall
back to `any`. -/
theorem c9_const_mangling_witness :
    clean_type "my_constants::Flag" = "my_ants::Flag"
    ∧ memEnumNames [⟨"Flag", "my_constants", ["A"], "int"⟩] "my_constants::Flag" = true
    ∧ is_enum [⟨"Flag", "my_constants", ["A"], "int"⟩] "my_constants::Flag" = false
    ∧ to_typescript [⟨"Flag", "my_constants", ["A"], "int"⟩] "my_constants::Flag" = "any"
    ∧ gb_cpp_to_ts "my_constants::Flag" = "any" :=
  ⟨by decide, by decide,
   c9_const_mangling.1 _ _ (by decide) (by decide),
   c9_const_mangling.2.1 _ _ (by decide) (by decide) (by decide),
   c9_const_mangling.2.2 _ (by decide) (by decide)⟩

/-! ## C10 -/

/-- C10: in the QuickJS setter every declared property is read off the
input object and the retrieved value freed, but a conversion/assignment is
emitted exactly when the raw type contains `vec3`, `quat`, `f32` or
`float`; for every other property the setter emits nothing in between (no
placeholder either), while the getter emits an explicit TODO comment. -/
theorem c10_quickjs_setter :
    ∀ p : GBProperty,
      (qjsSetPropLines p).head? =
        some ("    JSValue " ++ p.name ++ "Val = JS_GetPropertyStr(ctx, argv[1], \"" ++ p.name ++ "\");")
      ∧ (qjsSetPropLines p).getLast? =
        some ("    JS_FreeValue(ctx, " ++ p.name ++ "Val);")
      ∧ ((strContains p.type "vec3" || strContains p.type "quat" ||
          strContains p.type "f32" || strContains p.type "float") = false →
          qjsSetPropLines p =
            ["    JSValue " ++ p.name ++ "Val = JS_GetPropertyStr(ctx, argv[1], \"" ++ p.name ++ "\");",
             "    JS_FreeValue(ctx, " ++ p.name ++ "Val);"]
          ∧ qjsGetPropLine p = "    // TODO: Add converter for " ++ p.type)
      ∧ ((strContains p.type "vec3" || strContains p.type "quat" ||
          strContains p.type "f32" || strContains p.type "float") = true →
          2 < (qjsSetPropLines p).length
          ∧ lpre "    JS_SetPropertyStr".data (qjsGetPropLine p).data = true) := by
  intro p
  rw [qjsSetPropLines, qjsGetPropLine]
  by_cases h1 : strContains p.type "vec3" = true
  · simp [h1, List.getLast?]
    all_goals rfl
  · have h1' : strContains p.type "vec3" = false := by simpa using h1
    by_cases h2 : strContains p.type "quat" = true
    · simp [h1', h2, List.getLast?]
      all_goals rfl
    · have h2' : strContains p.type "quat" = false := by simpa using h2
      by_cases h3 : strContains p.type "f32" = true
      · simp [h1', h2', h3, List.getLast?]
        all_goals rfl
      · have h3' : strContains p.type "f32" = false := by simpa using h3
        by_cases h4 : strContains p.type "float" = true
        · simp [h1', h2', h3', h4, List.getLast?]
          all_goals rfl
        · have h4' : strContains p.type "float" = false := by simpa using h4
          simp [h1', h2', h3', h4', List.getLast?]

/-- C10 witness: a `u32` property gets only the read and free lines in the
setter and a TODO comment in the getter; a `glm::vec3` property gets a
conversion (three lines in the setter). -/
theorem c10_quickjs_setter_witness :
    (strContains "u32" "vec3" || strContains "u32" "quat" ||
     strContains "u32" "f32" || strContains "u32" "float") = false
    ∧ qjsSetPropLines ⟨"flags", "u32", none⟩ =
        ["    JSValue flagsVal = JS_GetPropertyStr(ctx, argv[1], \"flags\");",
         "    JS_FreeValue(ctx, flagsVal);"]
    ∧ qjsGetPropLine ⟨"flags", "u32", none⟩ = "    // TODO: Add converter for u32"
    ∧ 2 < (qjsSetPropLines ⟨"pos", "glm::vec3", none⟩).length :=
  ⟨by decide,
   ((c10_quickjs_setter ⟨"flags", "u32", none⟩).2.2.1 (by decide)).1,
   by
     have h := ((c10_quickjs_setter ⟨"flags", "u32", none⟩).2.2.1 (by decide)).2
     simpa using h,
   ((c10_quickjs_setter ⟨"pos", "glm::vec3", none⟩).2.2.2 (by decide)).1⟩

/-! ## C1 -/

set_option maxRecDepth 100000 in
/-- C1: the claim holds for `eht.py` (counter-based scan from the opening
brace, nested pairs included, stops exactly at the outermost closing brace,
trailing markers excluded) but `generate_bindings.py` contradicts it: its
scan starts at count 0 and stops only when the count goes negative, so a
component's body runs to the enclosing scope's closing brace — absorbing
the following struct's marked properties — and is empty when no unmatched
closing brace exists at all, losing every property of a top-level struct. -/
theorem c1_balanced_scan :
    ((ehtParseFile "f.hpp" twoStructs).2.map
        (fun c => (c.name, c.properties.map (·.name))) = [("A", ["x"]), ("B", ["y"])])
    ∧ ((ehtParseFile "f.hpp" nestedStruct).2.map
        (fun c => (c.name, c.properties.map (·.name))) = [("C", ["v", "s"])])
    ∧ ((gbParseFile "f.hpp" twoStructs).map
        (fun c => (c.name, c.properties.map (·.name))) = [("A", ["x", "y"]), ("B", ["y"])])
    ∧ ((gbParseFile "f.hpp" topStruct).map
        (fun c => (c.name, c.properties.map (·.name))) = [("T", [])]) := by
  decide

/-! ## C4 -/

/-- C4: a file whose read raises contributes nothing to the schema, yields
exactly one warning, and the scan continues with the remaining files (the
result is the concatenation of the successful files' parses, in order);
the run fails (exit 1) exactly when the accumulated component list is
empty. -/
theorem c4_directory_scan :
    (∀ files : List PyFile,
      (ehtParseDirectory files).1 =
        files.flatMap (fun f =>
          match f.content with
          | some text => (ehtParseFile f.path text).2
          | none => [])
      ∧ (ehtParseDirectory files).2.1 =
        files.flatMap (fun f =>
          match f.content with
          | some text => (ehtParseFile f.path text).1
          | none => [])
      ∧ (ehtParseDirectory files).2.2 =
        (files.filter (fun f => f.content.isNone)).map
          (fun f => "Warning: Failed to parse " ++ f.path))
    ∧ (∀ files : List PyFile,
        (gbParseDirectory files).1 =
          files.flatMap (fun f =>
            match f.content with
            | some text => gbParseFile f.path text
            | none => [])
        ∧ (gbParseDirectory files).2 =
          (files.filter (fun f => f.content.isNone)).map
            (fun f => "Warning: Failed to parse " ++ f.path))
    ∧ (∀ (dirs : List (List PyFile)) (o t : String),
        (ehtMain dirs o t).1 =
          if (ehtParseDirectory dirs.flatten).1.isEmpty then 1 else 0) := by
  refine ⟨?_, ?_, ?_⟩
  · intro files
    induction files with
    | nil => exact ⟨rfl, rfl, rfl⟩
    | cons f fs ih =>
      cases hc : f.content with
      | some text =>
        refine ⟨?_, ?_, ?_⟩ <;>
          simp [ehtParseDirectory, hc, List.filter_cons, ih.1, ih.2.1, ih.2.2]
      | none =>
        refine ⟨?_, ?_, ?_⟩ <;>
          simp [ehtParseDirectory, hc, List.filter_cons, ih.1, ih.2.1, ih.2.2]
  · intro files
    induction files with
    | nil => exact ⟨rfl, rfl⟩
    | cons f fs ih =>
      cases hc : f.content with
      | some text =>
        refine ⟨?_, ?_⟩ <;>
          simp [gbParseDirectory, hc, List.filter_cons, ih.1, ih.2]
      | none =>
        refine ⟨?_, ?_⟩ <;>
          simp [gbParseDirectory, hc, List.filter_cons, ih.1, ih.2]
  · intro dirs o t
    rw [ehtMain]
    by_cases h : (ehtParseDirectory dirs.flatten).1.isEmpty = true
    · simp [h]
    · have h' : (ehtParseDirectory dirs.flatten).1.isEmpty = false := by simpa using h
      simp [h']

/-- C4 witness: a directory where the middle file's read raises — the two
good files' components survive in order, the bad file contributes nothing
beyond one warning. -/
theorem c4_directory_scan_witness :
    (ehtParseDirectory mixedDir).1 =
      mixedDir.flatMap (fun f =>
        match f.content with
        | some text => (ehtParseFile f.path text).2
        | none => [])
    ∧ (ehtParseDirectory mixedDir).1.map (·.name) = ["G", "H"]
    ∧ (ehtParseDirectory mixedDir).2.2 = ["Warning: Failed to parse bad.hpp"] :=
  ⟨(c4_directory_scan.1 mixedDir).1, by decide, by decide⟩

/-! ## C5 -/

/-- C5, counterexample to the claim as frozen: an unterminated brace span
does not skip the entity — `eht.py` still extracts the component, its body
truncated at EOF, with the marked property found — and no warning is
emitted, neither for it nor for a marker with no opening brace at all. -/
theorem c5_counterexample :
    ((ehtParseFile "f.hpp" untermStruct).2.map
        (fun c => (c.name, c.properties.map (fun p => (p.name, p.cpp_type)))) =
      [("Foo", [("x", "f32")])])
    ∧ (ehtParseDirectory [⟨"f.hpp", some untermStruct⟩]).2.2 = []
    ∧ (ehtParseDirectory [⟨"g.hpp", some noBraceStruct⟩]).1 = []
    ∧ (ehtParseDirectory [⟨"g.hpp", some noBraceStruct⟩]).2.2 = [] := by
  decide

/-- C5 (amended): a marker with no opening delimiter after it is skipped
silently — the extracted entities are exactly the matches with a brace
(resp. a brace and a closing `\x7d;` for enums), and a parsed file never
emits a warning; an unterminated component span is NOT skipped: `eht.py`
extracts it with the body truncated at EOF, and the `generate_bindings.py`
scan yields an empty body for a top-level struct; no exception aborts the
scan (all parse functions are total). -/
theorem c5_skip_behaviour :
    (∀ (content : List Char) (ns path : String),
      (ehtParseComponents content ns path).length =
        (scanAll matchCompEht content).countP
          (fun m => (findCharFrom '\x7b' content m.2).isSome))
    ∧ (∀ (content : List Char) (ns : String),
        (ehtParseEnums content ns).length =
          (scanAll matchEnumEht content).countP
            (fun m => ((findCharFrom '\x7b' content m.2).bind
              (fun bs => findSubFrom "\x7d;".data content bs)).isSome))
    ∧ (∀ (path t : String), (ehtParseDirectory [⟨path, some t⟩]).2.2 = [])
    ∧ ((gbParseFile "f.hpp" gbTopStruct).map
        (fun c => (c.name, c.properties.length)) = [("W", 0)])
    ∧ ((ehtParseFile "f.hpp" untermStruct).2.length = 1) := by
  refine ⟨?_, ?_, ?_, by decide, by decide⟩
  · intro content ns path
    rw [ehtParseComponents, length_filterMap_countP]
    refine List.countP_congr ?_
    intro m _
    rw [ehtBody]
    cases findCharFrom '\x7b' content m.2 <;> rfl
  · intro content ns
    rw [ehtParseEnums, length_filterMap_countP]
    refine List.countP_congr ?_
    intro m _
    cases h : findCharFrom '\x7b' content m.2 with
    | none => rfl
    | some bs =>
      cases h2 : findSubFrom "\x7d;".data content bs with
      | none => simp [ehtParseEnums, h, h2]
      | some be => simp [ehtParseEnums, h, h2]
  · intro path t
    rfl

/-- C5 witness: a file consisting of one marker with no brace yields no
components, no enums and no warnings. -/
theorem c5_skip_behaviour_witness :
    (ehtParseComponents noBraceStruct.data "" "g.hpp").length =
      (scanAll matchCompEht noBraceStruct.data).countP
        (fun m => (findCharFrom '\x7b' noBraceStruct.data m.2).isSome)
    ∧ (ehtParseComponents noBraceStruct.data "" "g.hpp").length = 0
    ∧ (scanAll matchCompEht noBraceStruct.data).length = 1
    ∧ (ehtParseDirectory [⟨"g.hpp", some noBraceStruct⟩]).2.2 = [] :=
  ⟨c5_skip_behaviour.1 noBraceStruct.data "" "g.hpp", by decide, by decide,
   c5_skip_behaviour.2.2.1 "g.hpp" noBraceStruct⟩

/-! ## C7 -/

/-- C7: the declaration-file emitter numbers an extracted enum's members
positionally: the line rendered for the `i`-th value is `name = i`, in
declared order (explicit numeric assignments in the source text are not
captured by extraction, so an enum with no overrides is numbered
`0..n-1`). -/
theorem c7_enum_numbering :
    (∀ (e : Enum) (i : Nat) (v : String),
      e.values.get? i = some v →
      (tsEnumBlock e).get? (i + 1) =
        some ("    " ++ v ++ " = " ++ toString i ++ ","))
    ∧ (∀ e : Enum, (tsEnumBlock e).length = e.values.length + 3) := by
  constructor
  · intro e i v hv
    have hlt : i < e.values.length := List.get?_eq_some.mp hv |>.1
    rw [tsEnumBlock]
    show (List.map (fun iv => "    " ++ iv.2 ++ " = " ++ toString iv.1 ++ ",") e.values.enum ++
        ["\x7d", ""]).get? i = some ("    " ++ v ++ " = " ++ toString i ++ ",")
    rw [List.get?_append (by simpa using hlt), List.get?_map, List.enum_get?, hv]
    rfl
  · intro e
    simp [tsEnumBlock]

/-- C7 witness: the four-value enum `Facing` gets members numbered 0..3 in
declaration order. -/
theorem c7_enum_numbering_witness :
    (⟨"Facing", "", ["North", "East", "South", "West"], "int"⟩ : Enum).values.get? 2 =
      some "South"
    ∧ (tsEnumBlock ⟨"Facing", "", ["North", "East", "South", "West"], "int"⟩).get? 3 =
      some "    South = 2,"
    ∧ tsEnumBlock ⟨"Facing", "", ["North", "East", "South", "West"], "int"⟩ =
      ["export enum Facing \x7b",
       "    North = 0,", "    East = 1,", "    South = 2,", "    West = 3,",
       "\x7d", ""] :=
  ⟨by decide,
   c7_enum_numbering.1 ⟨"Facing", "", ["North", "East", "South", "West"], "int"⟩ 2 "South"
     (by decide),
   by decide⟩

/-! ## C8 -/

/-- C8: both orchestrators report exit status 1 with no writes and no
emitter invocation when the merged schema has no components; otherwise
every emitter runs and its artifact is written, with exit status 0. -/
theorem c8_orchestrator :
    (∀ (dirs : List (List PyFile)) (o t : String),
      ((ehtParseDirectory dirs.flatten).1 = [] → ehtMain dirs o t = (1, []))
      ∧ ((ehtParseDirectory dirs.flatten).1 ≠ [] →
          ehtMain dirs o t =
            (0, [(o ++ "/WebBindings.generated.cpp",
                  embind_generate (ehtParseDirectory dirs.flatten).1
                    (ehtParseDirectory dirs.flatten).2.1),
                 (t ++ "/wasm.generated.ts",
                  ts_generate (ehtParseDirectory dirs.flatten).1
                    (ehtParseDirectory dirs.flatten).2.1)])))
    ∧ (∀ (files : List PyFile) (o : String),
        ((gbParseDirectory files).1 = [] → gbMain files o = (1, []))
        ∧ ((gbParseDirectory files).1 ≠ [] →
            gbMain files o =
              (0, [(o ++ "/WebBindings.generated.cpp",
                    gbEmsGenerate (gbParseDirectory files).1),
                   ("bindings/esengine.d.ts", gbTsGenerate (gbParseDirectory files).1),
                   ("src/esengine/scripting/bindings/ECSBindings.generated.cpp",
                    qjsGenerate (gbParseDirectory files).1)]))) := by
  constructor
  · intro dirs o t
    constructor
    · intro h
      rw [ehtMain]
      simp [h]
    · intro h
      rw [ehtMain]
      have h' : (ehtParseDirectory dirs.flatten).1.isEmpty = false := by
        cases hl : (ehtParseDirectory dirs.flatten).1 with
        | nil => exact absurd hl h
        | cons a l => rfl
      simp [h']
  · intro files o
    constructor
    · intro h
      rw [gbMain]
      simp [h]
    · intro h
      rw [gbMain]
      have h' : (gbParseDirectory files).1.isEmpty = false := by
        cases hl : (gbParseDirectory files).1 with
        | nil => exact absurd hl h
        | cons a l => rfl
      simp [h']

/-- C8 witness: an empty scan gives exit 1 and no writes; a scan finding
one component gives exit 0 and (for `generate_bindings.py`) three writes. -/
theorem c8_orchestrator_witness :
    ehtMain [[]] "out" "sdk" = (1, [])
    ∧ (gbParseDirectory [⟨"w.hpp", some gbTopStruct⟩]).1 ≠ []
    ∧ (gbMain [⟨"w.hpp", some gbTopStruct⟩] "out").1 = 0
    ∧ (gbMain [⟨"w.hpp", some gbTopStruct⟩] "out").2.length = 3 :=
  ⟨(c8_orchestrator.1 [[]] "out" "sdk").1 (by decide),
   by decide,
   by
     rw [(c8_orchestrator.2 [⟨"w.hpp", some gbTopStruct⟩] "out").2 (by decide)],
   by
     rw [(c8_orchestrator.2 [⟨"w.hpp", some gbTopStruct⟩] "out").2 (by decide)]
     rfl⟩

end Microes

namespace Microes

/-! ## C3 projection lemmas -/

theorem linesWith_cons_false (pr : List Char) (a : String) (l : List String)
    (h : lpre pr a.data = false) : linesWith pr (a :: l) = linesWith pr l := by
  simp [linesWith, List.filter_cons, h]

theorem linesWith_cons_true (pr : List Char) (a : String) (l : List String)
    (h : lpre pr a.data = true) : linesWith pr (a :: l) = a :: linesWith pr l := by
  simp [linesWith, List.filter_cons, h]

theorem linesWith_append (p : List Char) (l₁ l₂ : List String) :
    linesWith p (l₁ ++ l₂) = linesWith p l₁ ++ linesWith p l₂ :=
  List.filter_append _ _

theorem linesWith_flatMap {α} (p : List Char) (f : α → List String) (l : List α) :
    linesWith p (l.flatMap f) = l.flatMap (fun a => linesWith p (f a)) :=
  filter_flatMap _ f l

theorem linesWith_vo_semiFields (enums : List Enum) (c : Component) :
    ∀ l : List Property,
      linesWith voPrefix (appendSemiLast (l.map (voField enums c))) = [] := by
  intro l
  induction l with
  | nil => rfl
  | cons p ps ih =>
    cases ps with
    | nil =>
      rw [show appendSemiLast ([p].map (voField enums c)) = [voField enums c p ++ ";"] from rfl]
      rw [linesWith_cons_false voPrefix _ [] (by rfl)]
      rfl
    | cons q qs =>
      rw [show appendSemiLast ((p :: q :: qs).map (voField enums c)) =
          voField enums c p :: appendSemiLast ((q :: qs).map (voField enums c)) from rfl]
      rw [linesWith_cons_false voPrefix _ _ (by rfl)]
      exact ih

theorem linesWith_field_semiFields (enums : List Enum) (c : Component) :
    ∀ l : List Property,
      linesWith fieldPrefix (appendSemiLast (l.map (voField enums c))) =
        appendSemiLast (l.map (voField enums c)) := by
  intro l
  induction l with
  | nil => rfl
  | cons p ps ih =>
    cases ps with
    | nil =>
      rw [show appendSemiLast ([p].map (voField enums c)) = [voField enums c p ++ ";"] from rfl]
      rw [linesWith_cons_true fieldPrefix _ [] (by rfl)]
      rfl
    | cons q qs =>
      rw [show appendSemiLast ((p :: q :: qs).map (voField enums c)) =
          voField enums c p :: appendSemiLast ((q :: qs).map (voField enums c)) from rfl]
      rw [linesWith_cons_true fieldPrefix _ _ (by rfl)]
      exact congrArg (List.cons _) ih

theorem linesWith_voBlock_vo (enums : List Enum) (c : Component) :
    linesWith voPrefix (voBlock enums c) =
      [if (c.properties.filter (fun p => !is_skip p.cpp_type)).isEmpty
       then voHead enums c ++ ";" else voHead enums c] := by
  rw [voBlock]
  cases hk : c.properties.filter (fun p => !is_skip p.cpp_type) with
  | nil =>
    rw [show appendSemiLast (voHead enums c :: List.map (voField enums c) []) =
        [voHead enums c ++ ";"] from rfl]
    rw [show ([voHead enums c ++ ";"] ++ [""]) = (voHead enums c ++ ";") :: [""] from rfl]
    rw [linesWith_cons_true voPrefix _ _ (by rfl)]
    rw [linesWith_cons_false voPrefix _ _ (by rfl)]
    rfl
  | cons p ps =>
    rw [show appendSemiLast (voHead enums c :: List.map (voField enums c) (p :: ps)) =
        voHead enums c :: appendSemiLast (List.map (voField enums c) (p :: ps)) from rfl]
    rw [show ((voHead enums c :: appendSemiLast (List.map (voField enums c) (p :: ps))) ++ [""]) =
        voHead enums c :: (appendSemiLast (List.map (voField enums c) (p :: ps)) ++ [""]) from rfl]
    rw [linesWith_cons_true voPrefix _ _ (by rfl)]
    rw [linesWith_append]
    rw [linesWith_vo_semiFields enums c (p :: ps)]
    rw [show linesWith voPrefix [""] = [] from rfl]
    rfl

theorem linesWith_voBlock_field (enums : List Enum) (c : Component) :
    linesWith fieldPrefix (voBlock enums c) =
      appendSemiLast
        ((c.properties.filter (fun p => !is_skip p.cpp_type)).map (voField enums c)) := by
  rw [voBlock]
  cases hk : c.properties.filter (fun p => !is_skip p.cpp_type) with
  | nil =>
    rw [show appendSemiLast (voHead enums c :: List.map (voField enums c) []) =
        [voHead enums c ++ ";"] from rfl]
    rw [show ([voHead enums c ++ ";"] ++ [""]) = (voHead enums c ++ ";") :: [""] from rfl]
    rw [linesWith_cons_false fieldPrefix _ _ (by rfl)]
    rfl
  | cons p ps =>
    rw [show appendSemiLast (voHead enums c :: List.map (voField enums c) (p :: ps)) =
        voHead enums c :: appendSemiLast (List.map (voField enums c) (p :: ps)) from rfl]
    rw [show ((voHead enums c :: appendSemiLast (List.map (voField enums c) (p :: ps))) ++ [""]) =
        voHead enums c :: (appendSemiLast (List.map (voField enums c) (p :: ps)) ++ [""]) from rfl]
    rw [linesWith_cons_false fieldPrefix _ _ (by rfl)]
    rw [linesWith_append]
    rw [linesWith_field_semiFields enums c (p :: ps)]
    rw [show linesWith fieldPrefix [""] = [] from rfl]
    simp

/-! ## C3 -/

/-- C3, counterexample to the claim as frozen: the include lines of
`EmscriptenGenerator.generate` (`generate_bindings.py`) are rendered in
first-encounter order, not sorted — a schema whose first component lives
under `z/` and second under `a/` renders the `z/` include first. -/
theorem c3_counterexample :
    gbIncludeLines
        [⟨"B", "esengine", [], [], "src/esengine/z/B.hpp", true⟩,
         ⟨"A", "esengine", [], [], "src/esengine/a/A.hpp", true⟩]
      = ["#include \"../z/B.hpp\"", "#include \"../a/A.hpp\""]
    ∧ strLe "#include \"../z/B.hpp\"" "#include \"../a/A.hpp\"" = false
    ∧ sortLe (gbIncludeLines
        [⟨"B", "esengine", [], [], "src/esengine/z/B.hpp", true⟩,
         ⟨"A", "esengine", [], [], "src/esengine/a/A.hpp", true⟩])
      ≠ gbIncludeLines
        [⟨"B", "esengine", [], [], "src/esengine/z/B.hpp", true⟩,
         ⟨"A", "esengine", [], [], "src/esengine/a/A.hpp", true⟩] := by
  decide

/-- C3 (amended): every emitter is a pure function of the schema (equal
inputs give byte-identical output); component and property order in the
emitted registration section follows the schema's declared order (the
`value_object` head lines are exactly one per component, in order, and the
`.field` lines per component are its non-skipped properties in order);
`eht.py`'s collected include-header set is rendered sorted, while the
`generate_bindings.py` emitters render theirs deduplicated in
first-encounter order (still deterministic, but not sorted). -/
theorem c3_determinism_order :
    (∀ (c₁ c₂ : List Component) (e₁ e₂ : List Enum), c₁ = c₂ → e₁ = e₂ →
      embind_generate c₁ e₁ = embind_generate c₂ e₂
      ∧ ts_generate c₁ e₁ = ts_generate c₂ e₂)
    ∧ (∀ g₁ g₂ : List GBComponent, g₁ = g₂ →
        gbEmsGenerate g₁ = gbEmsGenerate g₂
        ∧ gbTsGenerate g₁ = gbTsGenerate g₂
        ∧ qjsGenerate g₁ = qjsGenerate g₂)
    ∧ (∀ comps : List Component,
        List.Pairwise (fun a b => strLe a b = true) (embindHeaderLines comps))
    ∧ (∀ comps : List GBComponent,
        gbIncludeLines comps = dedupFirst (comps.map (gbIncludeLine "../")))
    ∧ (∀ (enums : List Enum) (comps : List Component),
        linesWith voPrefix (comps.flatMap (voBlock enums)) =
          comps.map (fun c =>
            if (c.properties.filter (fun p => !is_skip p.cpp_type)).isEmpty
            then voHead enums c ++ ";" else voHead enums c))
    ∧ (∀ (enums : List Enum) (comps : List Component),
        linesWith fieldPrefix (comps.flatMap (voBlock enums)) =
          comps.flatMap (fun c =>
            appendSemiLast
              ((c.properties.filter (fun p => !is_skip p.cpp_type)).map (voField enums c)))) := by
  refine ⟨?_, ?_, ?_, ?_, ?_, ?_⟩
  · rintro c₁ c₂ e₁ e₂ rfl rfl; exact ⟨rfl, rfl⟩
  · rintro g₁ g₂ rfl; exact ⟨rfl, rfl, rfl⟩
  · intro comps
    exact pairwise_sortLe _
  · intro comps
    rw [gbIncludeLines, gbDedupLoop_eq]
    refine Eq.trans (List.filter_congr ?_) (List.filter_true _)
    intro x _
    simp [memStr]
  · intro enums comps
    rw [linesWith_flatMap]
    induction comps with
    | nil => rfl
    | cons c cs ih =>
      simp only [List.flatMap_cons, List.map_cons]
      rw [linesWith_voBlock_vo, ih]
      rfl
  · intro enums comps
    rw [linesWith_flatMap]
    induction comps with
    | nil => rfl
    | cons c cs ih =>
      simp only [List.flatMap_cons]
      rw [linesWith_voBlock_field, ih]

/-- C3 witness: the amended claim instantiated on a small schema — the
`eht.py` include block for components under `z/` and `a/` is sorted, and
the `value_object` heads come out in schema order. -/
theorem c3_determinism_order_witness :
    embind_generate [] [] = embind_generate [] []
    ∧ List.Pairwise (fun a b => strLe a b = true)
        (embindHeaderLines
          [⟨"B", "ns", [], "src/esengine/z/B.hpp"⟩,
           ⟨"A", "ns", [], "src/esengine/a/A.hpp"⟩])
    ∧ embindHeaderLines
        [⟨"B", "ns", [], "src/esengine/z/B.hpp"⟩,
         ⟨"A", "ns", [], "src/esengine/a/A.hpp"⟩]
      = ["#include \"../a/A.hpp\"", "#include \"../z/B.hpp\""]
    ∧ linesWith voPrefix
        ([⟨"B", "ns", [], "src/esengine/z/B.hpp"⟩,
          ⟨"A", "ns", [], "src/esengine/a/A.hpp"⟩].flatMap (voBlock []))
      = ["    value_object<ns::B>(\"B\");", "    value_object<ns::A>(\"A\");"] :=
  ⟨(c3_determinism_order.1 [] [] [] [] rfl rfl).1,
   c3_determinism_order.2.2.1
     [⟨"B", "ns", [], "src/esengine/z/B.hpp"⟩, ⟨"A", "ns", [], "src/esengine/a/A.hpp"⟩],
   by decide,
   by
     rw [c3_determinism_order.2.2.2.2.1 []
       [⟨"B", "ns", [], "src/esengine/z/B.hpp"⟩, ⟨"A", "ns", [], "src/esengine/a/A.hpp"⟩]]
     decide⟩

end Microes

namespace Microes

/-! ## The balanced-delimiter scan, in general

`eht.py`'s counter-based body scan is the one delicate piece of text
processing in the system; beyond the concrete evaluations above, the
following theorems prove it correct for every balanced body, at every
nesting depth. -/

/-- Number of opening braces in a character list. -/
def opensCl (l : List Char) : Nat := l.countP (fun c => c = '\x7b')

/-- Number of closing braces in a character list. -/
def closesCl (l : List Char) : Nat := l.countP (fun c => c = '\x7d')

theorem ehtScanLen_zero : ∀ l : List Char, ehtScanLen l 0 = 0 := by
  intro l
  cases l <;> rfl

/-- Running the `eht.py` brace counter with start value `k` over `w`
followed by a closing brace: if the counter stays positive throughout `w`
and reaches exactly 1 at its end, the scan consumes exactly `w` and the
closing brace, never looking at `rest`. -/
theorem ehtScanLen_run :
    ∀ (w : List Char) (k : Nat) (rest : List Char),
      (∀ n, closesCl (w.take n) < k + opensCl (w.take n)) →
      k + opensCl w = closesCl w + 1 →
      ehtScanLen (w ++ '\x7d' :: rest) k = w.length + 1 := by
  intro w
  induction w with
  | nil =>
    intro k rest _ hend
    have hk : k = 1 := by
      simp [opensCl, closesCl] at hend
      omega
    subst hk
    show ehtScanLen ('\x7d' :: rest) 1 = 1
    rw [show ehtScanLen ('\x7d' :: rest) 1 = 1 + ehtScanLen rest 0 from rfl]
    rw [ehtScanLen_zero]
  | cons c w' ih =>
    intro k rest hpre hend
    have hk0 : 0 < k := by
      have h0 := hpre 0
      simp [opensCl, closesCl] at h0
      exact h0
    obtain ⟨k₀, rfl⟩ : ∃ k₀, k = k₀ + 1 := ⟨k - 1, by omega⟩
    have hopen : opensCl (c :: w') = opensCl w' + (if c = '\x7b' then 1 else 0) := by
      simp [opensCl, List.countP_cons]
    have hclose : closesCl (c :: w') = closesCl w' + (if c = '\x7d' then 1 else 0) := by
      simp [closesCl, List.countP_cons]
    have hstep : ∀ n, closesCl ((c :: w').take (n + 1)) =
        closesCl (w'.take n) + (if c = '\x7d' then 1 else 0) := by
      intro n
      simp [closesCl, List.take_succ_cons, List.countP_cons]
    have hstepO : ∀ n, opensCl ((c :: w').take (n + 1)) =
        opensCl (w'.take n) + (if c = '\x7b' then 1 else 0) := by
      intro n
      simp [opensCl, List.take_succ_cons, List.countP_cons]
    by_cases hc1 : c = '\x7b'
    · subst hc1
      have h1 : ∀ n, closesCl (w'.take n) < (k₀ + 2) + opensCl (w'.take n) := by
        intro n
        have := hpre (n + 1)
        rw [hstep n, hstepO n] at this
        simp at this ⊢
        omega
      have h2 : (k₀ + 2) + opensCl w' = closesCl w' + 1 := by
        rw [hopen, hclose] at hend
        simp at hend
        omega
      show 1 + ehtScanLen (w' ++ '\x7d' :: rest) (k₀ + 2) = w'.length + 1 + 1
      rw [ih (k₀ + 2) rest h1 h2]
      omega
    · by_cases hc2 : c = '\x7d'
      · subst hc2
        have hk1 : 1 < k₀ + 1 := by
          have h1 := hpre 1
          rw [show (1 : Nat) = 0 + 1 from rfl, hstep 0, hstepO 0] at h1
          simp [opensCl, closesCl] at h1
          omega
        obtain ⟨k₁, rfl⟩ : ∃ k₁, k₀ = k₁ + 1 := ⟨k₀ - 1, by omega⟩
        have h1 : ∀ n, closesCl (w'.take n) < (k₁ + 1) + opensCl (w'.take n) := by
          intro n
          have := hpre (n + 1)
          rw [hstep n, hstepO n] at this
          simp at this ⊢
          omega
        have h2 : (k₁ + 1) + opensCl w' = closesCl w' + 1 := by
          rw [hopen, hclose] at hend
          simp at hend
          omega
        show 1 + ehtScanLen (w' ++ '\x7d' :: rest)
          (if '\x7d' = '\x7b' then k₁ + 3 else if '\x7d' = '\x7d' then k₁ + 1 else k₁ + 2)
          = w'.length + 1 + 1
        rw [if_neg (by decide), if_pos rfl, ih (k₁ + 1) rest h1 h2]
        omega
      · have h1 : ∀ n, closesCl (w'.take n) < (k₀ + 1) + opensCl (w'.take n) := by
          intro n
          have := hpre (n + 1)
          rw [hstep n, hstepO n] at this
          simp [hc1, hc2] at this ⊢
          omega
        have h2 : (k₀ + 1) + opensCl w' = closesCl w' + 1 := by
          rw [hopen, hclose] at hend
          simp [hc1, hc2] at hend
          omega
        show 1 + ehtScanLen (w' ++ '\x7d' :: rest)
          (if c = '\x7b' then k₀ + 2 else if c = '\x7d' then k₀ else k₀ + 1)
          = w'.length + 1 + 1
        rw [if_neg hc1, if_neg hc2, ih (k₀ + 1) rest h1 h2]
        omega

/-- The `eht.py` body extraction, in general: whenever the text from the
first opening brace at or after the marker's end decomposes as that brace,
a balanced body `w` (any nesting depth), its matching closing brace and
arbitrary trailing text, the extracted body is exactly the balanced span —
all nested content included, nothing after the outermost closing brace. -/
theorem ehtBody_balanced :
    ∀ (content : List Char) (endPos bs : Nat) (w rest : List Char),
      findCharFrom '\x7b' content endPos = some bs →
      content.drop bs = '\x7b' :: (w ++ '\x7d' :: rest) →
      closesCl w = opensCl w →
      (∀ n, closesCl (w.take n) ≤ opensCl (w.take n)) →
      ehtBody content endPos = some ('\x7b' :: (w ++ ['\x7d'])) := by
  intro content endPos bs w rest hfind hdecomp hbal hpre
  have hdrop1 : content.drop (bs + 1) = w ++ '\x7d' :: rest := by
    have hsplit : content.drop (bs + 1) = List.drop 1 (List.drop bs content) := by
      rw [List.drop_drop, Nat.add_comm]
    rw [hsplit, hdecomp]
    rfl
  have hscan : ehtScanLen (content.drop (bs + 1)) 1 = w.length + 1 := by
    rw [hdrop1]
    refine ehtScanLen_run w 1 rest ?_ ?_
    · intro n
      have := hpre n
      omega
    · omega
  rw [ehtBody, hfind]
  show some (slice content bs (bs + 1 + ehtScanLen (content.drop (bs + 1)) 1)) = _
  rw [hscan, slice, hdecomp]
  rw [show bs + 1 + (w.length + 1) - bs = w.length + 1 + 1 by omega]
  rw [List.take_succ_cons, List.take_append_eq_append_take]
  simp

end Microes
